import Mathlib

/-!
Shallow embedding of the SupplyChain contract
(src/agri-supply-chain/contracts/SupplyChain.sol, contract SupplyChain).

Solidity mappings become total functions with the zero struct as default,
monotone counters become Nat fields, and each external function becomes a
Lean function from the pre-state (plus call environment: sender, msg.value,
timestamp, and an oracle telling which addresses accept a direct transfer)
to an Except value.  A revert is an error result: the EVM rolls back every
storage write and value transfer of a reverted call, so an error carries no
post-state and no outbound transfers.  A successful call returns the
post-state together with the list of successful direct value transfers
(recipient, amount) performed by the call; a failed low-level send inside a
successful call is visible as a pendingWithdrawals credit in the post-state.

Quantities and amounts are Nat: the contract is compiled with Solidity
0.8 checked arithmetic, every subtraction in the source is guarded by an
explicit require, and the claims under examination do not depend on
uint256 wrap-around.
-/

namespace SupplyChainModel

abbrev Address := Nat

/-- enum Role of the SupplyChain contract. -/
inductive Role
  | None
  | Farmer
  | Distributor
  | Retailer
  | Customer
  | Admin
  deriving DecidableEq, Repr

/-- Cast a uint8 to Role; the source only casts values that passed a bound
check (role less than or equal to 5). -/
def Role.ofUint8 : Nat → Role
  | 0 => .None
  | 1 => .Farmer
  | 2 => .Distributor
  | 3 => .Retailer
  | 4 => .Customer
  | _ => .Admin

/-- enum Visibility of the SupplyChain contract. -/
inductive Visibility
  | Private
  | Public
  deriving DecidableEq, Repr

/-- Cast a uint8 to Visibility; the source only casts values that passed the
bound check (value less than or equal to 1). -/
def Visibility.ofUint8 : Nat → Visibility
  | 0 => .Private
  | _ => .Public

structure UserInfo where
  role : Role
  requested : Bool
  idHash : String
  meta : String
  appliedAt : Nat
  exists' : Bool
  deriving DecidableEq, Repr

structure FarmerProduct where
  batchId : Nat
  farmer : Address
  cropName : String
  cropPeriod : String
  daysToHarvest : Nat
  quantityKg : Nat
  pricePerKg : Nat
  location : String
  visibility : Visibility
  ipfsHash : String
  createdAt : Nat
  active : Bool
  deriving DecidableEq, Repr

structure DistributorBatch where
  batchId : Nat
  originBatchId : Nat
  distributor : Address
  quantityKg : Nat
  purchasePricePerKg : Nat
  listedPricePerKg : Nat
  visibility : Visibility
  createdAt : Nat
  active : Bool
  deriving DecidableEq, Repr

structure RetailPack where
  packId : Nat
  distributorBatchId : Nat
  distributor : Address
  quantityKg : Nat
  pricePerKg : Nat
  visibility : Visibility
  privateBuyer : Address
  available : Bool
  ipfsHash : String
  createdAt : Nat
  deriving DecidableEq, Repr

structure RetailUnit where
  unitId : Nat
  parentPackId : Nat
  retailer : Address
  quantityKg : Nat
  pricePerKg : Nat
  available : Bool
  ipfsHash : String
  createdAt : Nat
  deriving DecidableEq, Repr

structure BuyRequest where
  requestId : Nat
  packId : Nat
  requester : Address
  qtyKg : Nat
  wantsRetailer : Bool
  amountPaid : Nat
  resolved : Bool
  accepted : Bool
  createdAt : Nat
  deriving DecidableEq, Repr

structure PurchaseRecord where
  purchaseId : Nat
  unitId : Nat
  quantityKg : Nat
  pricePerKg : Nat
  qtyKg : Nat
  seller : Address
  buyer : Address
  sellerRole : Role
  buyerRole : Role
  timestamp : Nat
  deriving DecidableEq, Repr

/-- Zero value of a Solidity mapping entry. -/
def UserInfo.zero : UserInfo := ⟨.None, false, "", "", 0, false⟩

def FarmerProduct.zero : FarmerProduct :=
  ⟨0, 0, "", "", 0, 0, 0, "", .Private, "", 0, false⟩

def DistributorBatch.zero : DistributorBatch :=
  ⟨0, 0, 0, 0, 0, 0, .Private, 0, false⟩

def RetailPack.zero : RetailPack :=
  ⟨0, 0, 0, 0, 0, .Private, 0, false, "", 0⟩

def RetailUnit.zero : RetailUnit :=
  ⟨0, 0, 0, 0, 0, false, "", 0⟩

def BuyRequest.zero : BuyRequest :=
  ⟨0, 0, 0, 0, false, 0, false, false, 0⟩

def PurchaseRecord.zero : PurchaseRecord :=
  ⟨0, 0, 0, 0, 0, 0, 0, .None, .None, 0⟩

/-- Full storage of the SupplyChain contract.  owner is the Ownable owner
(the deployer). -/
structure State where
  owner : Address
  users : Address → UserInfo
  allUserAddresses : List Address
  isUserTracked : Address → Bool
  farmerProductCounter : Nat
  distributorBatchCounter : Nat
  retailPackCounter : Nat
  retailUnitCounter : Nat
  buyRequestCounter : Nat
  purchaseCounter : Nat
  farmerProducts : Nat → FarmerProduct
  distributorBatches : Nat → DistributorBatch
  retailPacks : Nat → RetailPack
  retailUnits : Nat → RetailUnit
  buyRequests : Nat → BuyRequest
  purchaseRecords : Nat → PurchaseRecord
  pendingWithdrawals : Address → Nat

/-- Typed revert reasons, one per require in the source. -/
inductive SCErr
  | notContractOwner
  | notRequiredRole
  | onlyFarmerOrDistributorRequest
  | alreadyHasRole
  | zeroAddress
  | userNotFound
  | invalidRole
  | quantityNotPositive
  | priceNotPositive
  | invalidVisibility
  | productNotFound
  | notOwner
  | farmerBatchNotFoundOrInactive
  | privateBatchNotAllowed
  | invalidQty
  | incorrectPayment
  | batchNotFoundOrInactive
  | notBatchOwner
  | lengthMismatch
  | ipfsLengthMismatch
  | sumExceedsQty
  | packNotFound
  | notPackOwner
  | privateAddressRequired
  | packNotAvailable
  | requestNotFound
  | alreadyResolved
  | callerNotPackOwner
  | packQtyExceeded
  | unitNotFound
  | unitNotAvailable
  | nothingToWithdraw
  | withdrawFailed
  deriving DecidableEq, Repr

/-- Result of one external call: error (revert, nothing changed) or the
post-state with the successful direct transfers made by the call. -/
abbrev Outcome := Except SCErr (State × List (Address × Nat))

/-- Constructor: deployer becomes Ownable owner and Admin user. -/
def initialState (deployer : Address) (ts : Nat) : State where
  owner := deployer
  users := Function.update (fun _ => UserInfo.zero) deployer
    { role := .Admin, requested := false, idHash := "", meta := "",
      appliedAt := ts, exists' := true }
  allUserAddresses := [deployer]
  isUserTracked := Function.update (fun _ => false) deployer true
  farmerProductCounter := 0
  distributorBatchCounter := 0
  retailPackCounter := 0
  retailUnitCounter := 0
  buyRequestCounter := 0
  purchaseCounter := 0
  farmerProducts := fun _ => FarmerProduct.zero
  distributorBatches := fun _ => DistributorBatch.zero
  retailPacks := fun _ => RetailPack.zero
  retailUnits := fun _ => RetailUnit.zero
  buyRequests := fun _ => BuyRequest.zero
  purchaseRecords := fun _ => PurchaseRecord.zero
  pendingWithdrawals := fun _ => 0

/-- Helper shared by requestRole and approveRole: push the address on the
roster the first time it is seen. -/
def trackUser (s : State) (a : Address) : State :=
  if s.isUserTracked a then s
  else
    { s with
      allUserAddresses := s.allUserAddresses ++ [a],
      isUserTracked := Function.update s.isUserTracked a true }

/-- function requestRole(uint8 role, string idHash, string meta). -/
def requestRole (s : State) (sender : Address) (ts : Nat) (role : Nat)
    (idHash meta : String) : Outcome :=
  if ¬ (role = 1 ∨ role = 2) then .error .onlyFarmerOrDistributorRequest
  else
    let u := s.users sender
    if u.role ≠ Role.None then .error .alreadyHasRole
    else
      let u' : UserInfo :=
        { u with
          requested := true, idHash := idHash, meta := meta,
          appliedAt := ts, exists' := true }
      .ok (trackUser { s with users := Function.update s.users sender u' } sender, [])

/-- function approveRole(address user, uint8 role), onlyOwner. -/
def approveRole (s : State) (sender : Address) (ts : Nat) (user : Address)
    (role : Nat) : Outcome :=
  if sender ≠ s.owner then .error .notContractOwner
  else if user = 0 then .error .zeroAddress
  else if ¬ (s.users user).exists' then .error .userNotFound
  else if ¬ (role ≤ 5) then .error .invalidRole
  else
    let u := s.users user
    let u' : UserInfo :=
      { u with
        role := Role.ofUint8 role, requested := false, appliedAt := ts }
    .ok (trackUser { s with users := Function.update s.users user u' } user, [])

/-- function revokeRole(address user), onlyOwner. -/
def revokeRole (s : State) (sender : Address) (user : Address) : Outcome :=
  if sender ≠ s.owner then .error .notContractOwner
  else if ¬ (s.users user).exists' then .error .userNotFound
  else
    let u := s.users user
    .ok ({ s with
           users := Function.update s.users user
             { u with role := .None, requested := false } }, [])

/-- Ownable.transferOwnership(address newOwner). -/
def transferOwnership (s : State) (sender : Address) (newOwner : Address) : Outcome :=
  if sender ≠ s.owner then .error .notContractOwner
  else if newOwner = 0 then .error .zeroAddress
  else .ok ({ s with owner := newOwner }, [])

/-- Ownable.renounceOwnership(). -/
def renounceOwnership (s : State) (sender : Address) : Outcome :=
  if sender ≠ s.owner then .error .notContractOwner
  else .ok ({ s with owner := 0 }, [])

/-- function addProduct(...), onlyRole(Farmer). -/
def addProduct (s : State) (sender : Address) (ts : Nat)
    (cropName cropPeriod : String) (daysToHarvest quantityKg pricePerKg : Nat)
    (location : String) (visibility : Nat) (ipfsHash : String) : Outcome :=
  if (s.users sender).role ≠ Role.Farmer then .error .notRequiredRole
  else if ¬ (quantityKg > 0) then .error .quantityNotPositive
  else if ¬ (pricePerKg > 0) then .error .priceNotPositive
  else if ¬ (visibility ≤ 1) then .error .invalidVisibility
  else
    let bid := s.farmerProductCounter + 1
    let p : FarmerProduct :=
      { batchId := bid, farmer := sender, cropName := cropName,
        cropPeriod := cropPeriod, daysToHarvest := daysToHarvest,
        quantityKg := quantityKg, pricePerKg := pricePerKg,
        location := location, visibility := Visibility.ofUint8 visibility,
        ipfsHash := ipfsHash, createdAt := ts, active := true }
    .ok ({ s with
           farmerProductCounter := bid,
           farmerProducts := Function.update s.farmerProducts bid p }, [])

/-- function updateProduct(uint256 batchId, uint256 newQuantityKg,
uint256 newPricePerKg, uint8 newVisibility, string newIpfsHash, bool setActive).
Each conditional field write of the source is one conditional record update. -/
def updateProduct (s : State) (sender : Address) (batchId newQuantityKg
    newPricePerKg newVisibility : Nat) (newIpfsHash : String)
    (setActive : Bool) : Outcome :=
  let p := s.farmerProducts batchId
  if p.batchId = 0 then .error .productNotFound
  else if p.farmer ≠ sender then .error .notOwner
  else
    let p1 := if newQuantityKg > 0 then { p with quantityKg := newQuantityKg } else p
    let p2 := if newPricePerKg > 0 then { p1 with pricePerKg := newPricePerKg } else p1
    let p3 := if newVisibility ≤ 1
      then { p2 with visibility := Visibility.ofUint8 newVisibility } else p2
    let p4 := if newIpfsHash.length > 0 then { p3 with ipfsHash := newIpfsHash } else p3
    .ok ({ s with
           farmerProducts :=
             Function.update s.farmerProducts batchId
               { p4 with active := setActive } }, [])

/-- function buyFarmerBatch(uint256 farmerBatchId, uint256 qtyKg),
payable, onlyRole(Distributor). -/
def buyFarmerBatch (s : State) (sender : Address) (value ts : Nat)
    (canReceive : Address → Bool) (farmerBatchId qtyKg : Nat) : Outcome :=
  if (s.users sender).role ≠ Role.Distributor then .error .notRequiredRole
  else
    let fp := s.farmerProducts farmerBatchId
    if ¬ (fp.batchId ≠ 0 ∧ fp.active) then .error .farmerBatchNotFoundOrInactive
    else if ¬ (fp.visibility = Visibility.Public ∨ fp.farmer = sender) then
      .error .privateBatchNotAllowed
    else if ¬ (qtyKg > 0 ∧ qtyKg ≤ fp.quantityKg) then .error .invalidQty
    else if value ≠ qtyKg * fp.pricePerKg then .error .incorrectPayment
    else
      let did := s.distributorBatchCounter + 1
      let db : DistributorBatch :=
        { batchId := did, originBatchId := farmerBatchId, distributor := sender,
          quantityKg := qtyKg, purchasePricePerKg := fp.pricePerKg,
          listedPricePerKg := fp.pricePerKg, visibility := .Public,
          createdAt := ts, active := true }
      let fp' : FarmerProduct :=
        { fp with
          quantityKg := fp.quantityKg - qtyKg,
          active := if fp.quantityKg - qtyKg = 0 then false else fp.active }
      let s1 :=
        { s with
          distributorBatchCounter := did,
          distributorBatches := Function.update s.distributorBatches did db,
          farmerProducts := Function.update s.farmerProducts farmerBatchId fp' }
      if canReceive fp.farmer then .ok (s1, [(fp.farmer, value)])
      else .ok ({ s1 with
                  pendingWithdrawals :=
                    Function.update s1.pendingWithdrawals fp.farmer
                      (s1.pendingWithdrawals fp.farmer + value) }, [])

/-- The pack-creating loop of splitDistributorBatch and the unit-creating
loop of splitRetailUnit share this shape: starting from (counter, mapping),
append one freshly numbered record per list element. -/
def recLoop {R : Type} (mk : Nat → (Nat × Nat) × String → R) :
    Nat × (Nat → R) → List ((Nat × Nat) × String) → Nat × (Nat → R)
  | acc, [] => acc
  | (n, m), x :: rest =>
      recLoop mk (n + 1, Function.update m (n + 1) (mk (n + 1) x)) rest

/-- One new RetailPack of splitDistributorBatch, at freshly incremented id. -/
def mkPack (d sender ts : Nat) (i : Nat) (x : (Nat × Nat) × String) : RetailPack :=
  { packId := i, distributorBatchId := d, distributor := sender,
    quantityKg := x.1.1, pricePerKg := x.1.2, visibility := .Private,
    privateBuyer := 0, available := true, ipfsHash := x.2, createdAt := ts }

/-- One new RetailUnit of splitRetailUnit, at freshly incremented id. -/
def mkUnit (parentPackId sender ts : Nat) (i : Nat)
    (x : (Nat × Nat) × String) : RetailUnit :=
  { unitId := i, parentPackId := parentPackId, retailer := sender,
    quantityKg := x.1.1, pricePerKg := x.1.2, available := true,
    ipfsHash := x.2, createdAt := ts }

def sumList : List Nat → Nat
  | [] => 0
  | q :: r => q + sumList r

/-- function splitDistributorBatch(uint256, uint256[], uint256[], string[]),
onlyRole(Distributor). -/
def splitDistributorBatch (s : State) (sender ts : Nat) (distributorBatchId : Nat)
    (splitQuantities pricesPerKg : List Nat) (ipfsHashes : List String) : Outcome :=
  if (s.users sender).role ≠ Role.Distributor then .error .notRequiredRole
  else
    let db := s.distributorBatches distributorBatchId
    if ¬ (db.batchId ≠ 0 ∧ db.active) then .error .batchNotFoundOrInactive
    else if db.distributor ≠ sender then .error .notBatchOwner
    else if splitQuantities.length ≠ pricesPerKg.length then .error .lengthMismatch
    else if splitQuantities.length ≠ ipfsHashes.length then .error .ipfsLengthMismatch
    else if ¬ (sumList splitQuantities ≤ db.quantityKg) then .error .sumExceedsQty
    else
      let pr := recLoop (mkPack distributorBatchId sender ts)
        (s.retailPackCounter, s.retailPacks)
        ((splitQuantities.zip pricesPerKg).zip ipfsHashes)
      let rem := db.quantityKg - sumList splitQuantities
      let db' : DistributorBatch :=
        { db with
          quantityKg := rem, active := if rem = 0 then false else db.active }
      .ok ({ s with
             retailPackCounter := pr.1, retailPacks := pr.2,
             distributorBatches :=
               Function.update s.distributorBatches distributorBatchId db' }, [])

/-- function listPack(uint256 packId, uint8 visibility,
address optionalPrivateAddress), onlyRole(Distributor). -/
def listPack (s : State) (sender : Address) (packId visibility : Nat)
    (optionalPrivateAddress : Address) : Outcome :=
  if (s.users sender).role ≠ Role.Distributor then .error .notRequiredRole
  else
    let p := s.retailPacks packId
    if p.packId = 0 then .error .packNotFound
    else if p.distributor ≠ sender then .error .notPackOwner
    else if ¬ (visibility ≤ 1) then .error .invalidVisibility
    else
      let v := Visibility.ofUint8 visibility
      if v = Visibility.Private then
        if optionalPrivateAddress = 0 then .error .privateAddressRequired
        else
          .ok ({ s with
                 retailPacks := Function.update s.retailPacks packId
                   { p with visibility := v, privateBuyer := optionalPrivateAddress } }, [])
      else
        .ok ({ s with
               retailPacks := Function.update s.retailPacks packId
                 { p with visibility := v, privateBuyer := 0 } }, [])

/-- function createBuyRequest(uint256 packId, uint256 qtyKg, bool wantsRetailer),
payable, open to any caller.  Note: the source checks existence, availability,
quantity and payment only; it reads neither visibility nor privateBuyer. -/
def createBuyRequest (s : State) (sender : Address) (value ts : Nat)
    (packId qtyKg : Nat) (wantsRetailer : Bool) : Outcome :=
  let p := s.retailPacks packId
  if p.packId = 0 then .error .packNotFound
  else if ¬ p.available then .error .packNotAvailable
  else if ¬ (qtyKg > 0 ∧ qtyKg ≤ p.quantityKg) then .error .invalidQty
  else if value ≠ qtyKg * p.pricePerKg then .error .incorrectPayment
  else
    let rid := s.buyRequestCounter + 1
    let br : BuyRequest :=
      { requestId := rid, packId := packId, requester := sender, qtyKg := qtyKg,
        wantsRetailer := wantsRetailer, amountPaid := value, resolved := false,
        accepted := false, createdAt := ts }
    .ok ({ s with
           buyRequestCounter := rid,
           buyRequests := Function.update s.buyRequests rid br }, [])

/-- Accept path of approveBuyRequest, taken after the request has been
marked resolved in s1.  br and p are the request and pack as read from
storage before the mark; the quantity require sits after the funds transfer
in the source, but a failing require reverts the whole call, transfer
included, so the embedding checks it before committing anything. -/
def acceptBuyRequest (s1 : State) (sender : Address) (ts : Nat)
    (canReceive : Address → Bool) (br : BuyRequest) (p : RetailPack) : Outcome :=
  if ¬ (br.qtyKg ≤ p.quantityKg) then .error .packQtyExceeded
  else
    let rem := p.quantityKg - br.qtyKg
    let p' : RetailPack :=
      { p with
        quantityKg := rem,
        available := if rem = 0 then false else p.available }
    let uid := s1.retailUnitCounter + 1
    let ru : RetailUnit :=
      { unitId := uid, parentPackId := br.packId, retailer := br.requester,
        quantityKg := br.qtyKg, pricePerKg := p.pricePerKg,
        available := true, ipfsHash := "", createdAt := ts }
    let u := s1.users br.requester
    let users' :=
      if br.wantsRetailer ∧ u.role ≠ Role.Retailer then
        Function.update s1.users br.requester
          { u with role := .Retailer, exists' := true }
      else s1.users
    let s2 :=
      { s1 with
        retailPacks := Function.update s1.retailPacks br.packId p',
        retailUnitCounter := uid,
        retailUnits := Function.update s1.retailUnits uid ru,
        users := users' }
    if canReceive sender then .ok (s2, [(sender, br.amountPaid)])
    else
      .ok ({ s2 with
             pendingWithdrawals :=
               Function.update s2.pendingWithdrawals sender
                 (s2.pendingWithdrawals sender + br.amountPaid) }, [])

/-- function approveBuyRequest(uint256 requestId, bool accept),
onlyRole(Distributor). -/
def approveBuyRequest (s : State) (sender : Address) (ts : Nat)
    (canReceive : Address → Bool) (requestId : Nat) (accept : Bool) : Outcome :=
  if (s.users sender).role ≠ Role.Distributor then .error .notRequiredRole
  else
    let br := s.buyRequests requestId
    if br.requestId = 0 then .error .requestNotFound
    else if br.resolved then .error .alreadyResolved
    else
      let p := s.retailPacks br.packId
      if p.packId = 0 then .error .packNotFound
      else if p.distributor ≠ sender then .error .callerNotPackOwner
      else
        let br' : BuyRequest := { br with resolved := true, accepted := accept }
        let s1 := { s with buyRequests := Function.update s.buyRequests requestId br' }
        if ¬ accept then
          if canReceive br.requester then .ok (s1, [(br.requester, br.amountPaid)])
          else
            .ok ({ s1 with
                   pendingWithdrawals :=
                     Function.update s1.pendingWithdrawals br.requester
                       (s1.pendingWithdrawals br.requester + br.amountPaid) }, [])
        else acceptBuyRequest s1 sender ts canReceive br p

/-- function splitRetailUnit(uint256, uint256[], uint256[], string[]),
onlyRole(Retailer).  The final debit re-reads the root slot from the mapping
produced by the loop, exactly as the storage reference of the source does. -/
def splitRetailUnit (s : State) (sender ts : Nat) (unitId : Nat)
    (unitQuantities unitPricesPerKg : List Nat) (ipfsHashes : List String) : Outcome :=
  if (s.users sender).role ≠ Role.Retailer then .error .notRequiredRole
  else
    let root := s.retailUnits unitId
    if root.unitId = 0 then .error .unitNotFound
    else if root.retailer ≠ sender then .error .notOwner
    else if unitQuantities.length ≠ unitPricesPerKg.length then .error .lengthMismatch
    else if unitQuantities.length ≠ ipfsHashes.length then .error .ipfsLengthMismatch
    else if ¬ (sumList unitQuantities ≤ root.quantityKg) then .error .sumExceedsQty
    else
      let ur := recLoop (mkUnit root.parentPackId sender ts)
        (s.retailUnitCounter, s.retailUnits)
        ((unitQuantities.zip unitPricesPerKg).zip ipfsHashes)
      let root2 := ur.2 unitId
      let rem := root2.quantityKg - sumList unitQuantities
      let root' : RetailUnit :=
        { root2 with
          quantityKg := rem,
          available := if rem = 0 then false else root2.available }
      .ok ({ s with
             retailUnitCounter := ur.1,
             retailUnits := Function.update ur.2 unitId root' }, [])

/-- function listUnitForCustomers(uint256 unitId, uint8), onlyRole(Retailer). -/
def listUnitForCustomers (s : State) (sender : Address) (unitId : Nat) : Outcome :=
  if (s.users sender).role ≠ Role.Retailer then .error .notRequiredRole
  else
    let u := s.retailUnits unitId
    if u.unitId = 0 then .error .unitNotFound
    else if u.retailer ≠ sender then .error .notOwner
    else
      .ok ({ s with
             retailUnits := Function.update s.retailUnits unitId
               { u with available := true } }, [])

/-- function buyRetailUnit(uint256 unitId, uint256 qtyKg), payable, any caller.
The source assigns every PurchaseRecord field except the unused quantityKg,
which keeps its mapping default. -/
def buyRetailUnit (s : State) (sender : Address) (value ts : Nat)
    (canReceive : Address → Bool) (unitId qtyKg : Nat) : Outcome :=
  let u := s.retailUnits unitId
  if ¬ (u.unitId ≠ 0 ∧ u.available) then .error .unitNotAvailable
  else if ¬ (qtyKg > 0 ∧ qtyKg ≤ u.quantityKg) then .error .invalidQty
  else if value ≠ qtyKg * u.pricePerKg then .error .incorrectPayment
  else
    let pid := s.purchaseCounter + 1
    let pr : PurchaseRecord :=
      { s.purchaseRecords pid with
        purchaseId := pid, unitId := unitId,
        qtyKg := qtyKg, pricePerKg := u.pricePerKg, seller := u.retailer,
        buyer := sender, sellerRole := (s.users u.retailer).role,
        buyerRole := (s.users sender).role, timestamp := ts }
    let rem := u.quantityKg - qtyKg
    let u' : RetailUnit :=
      { u with
        quantityKg := rem,
        available := if rem = 0 then false else u.available }
    let s1 :=
      { s with
        purchaseCounter := pid,
        purchaseRecords := Function.update s.purchaseRecords pid pr,
        retailUnits := Function.update s.retailUnits unitId u' }
    if canReceive u.retailer then .ok (s1, [(u.retailer, value)])
    else
      .ok ({ s1 with
             pendingWithdrawals :=
               Function.update s1.pendingWithdrawals u.retailer
                 (s1.pendingWithdrawals u.retailer + value) }, [])

/-- function withdraw().  The credit is zeroed before the transfer; a failed
transfer reverts the call, restoring the credit. -/
def withdraw (s : State) (sender : Address) (canReceive : Address → Bool) : Outcome :=
  let amount := s.pendingWithdrawals sender
  if amount = 0 then .error .nothingToWithdraw
  else if canReceive sender then
    .ok ({ s with
           pendingWithdrawals :=
             Function.update s.pendingWithdrawals sender 0 }, [(sender, amount)])
  else .error .withdrawFailed

/-- receive(): credits the sent value to the sender's pending withdrawals. -/
def receiveEther (s : State) (sender : Address) (value : Nat) : State :=
  { s with
    pendingWithdrawals :=
      Function.update s.pendingWithdrawals sender
        (s.pendingWithdrawals sender + value) }

/-- Post-state of a successful call (dummy fallback for errors; used only on
calls proven successful). -/
def okSt (o : Outcome) : State :=
  match o with
  | .ok p => p.1
  | .error _ => initialState 0 0

/-- Transfer oracle of a run in which every recipient accepts direct sends. -/
def alwaysPay : Address → Bool := fun _ => true

/-!  One-step transition relation of the contract.  StepQ contains every
external call in which updateProduct does not overwrite the stored quantity
(newQuantityKg = 0); Step adds the unrestricted updateProduct, so Step is
the full transition relation of the contract. -/

inductive StepQ : State → State → Prop
  | requestRole (s s' : State) (sender ts role : Nat) (idHash meta : String)
      (outs : List (Address × Nat))
      (h : requestRole s sender ts role idHash meta = .ok (s', outs)) :
      StepQ s s'
  | approveRole (s s' : State) (sender ts user role : Nat)
      (outs : List (Address × Nat))
      (h : approveRole s sender ts user role = .ok (s', outs)) :
      StepQ s s'
  | revokeRole (s s' : State) (sender user : Nat)
      (outs : List (Address × Nat))
      (h : revokeRole s sender user = .ok (s', outs)) :
      StepQ s s'
  | transferOwnership (s s' : State) (sender newOwner : Nat)
      (outs : List (Address × Nat))
      (h : transferOwnership s sender newOwner = .ok (s', outs)) :
      StepQ s s'
  | renounceOwnership (s s' : State) (sender : Nat)
      (outs : List (Address × Nat))
      (h : renounceOwnership s sender = .ok (s', outs)) :
      StepQ s s'
  | addProduct (s s' : State) (sender ts : Nat) (cropName cropPeriod : String)
      (daysToHarvest quantityKg pricePerKg : Nat) (location : String)
      (visibility : Nat) (ipfsHash : String) (outs : List (Address × Nat))
      (h : addProduct s sender ts cropName cropPeriod daysToHarvest quantityKg
        pricePerKg location visibility ipfsHash = .ok (s', outs)) :
      StepQ s s'
  | updateProduct (s s' : State) (sender batchId newQuantityKg newPricePerKg
      newVisibility : Nat) (newIpfsHash : String) (setActive : Bool)
      (outs : List (Address × Nat))
      (hq : newQuantityKg = 0)
      (h : updateProduct s sender batchId newQuantityKg newPricePerKg
        newVisibility newIpfsHash setActive = .ok (s', outs)) :
      StepQ s s'
  | buyFarmerBatch (s s' : State) (sender value ts : Nat)
      (canReceive : Address → Bool) (farmerBatchId qtyKg : Nat)
      (outs : List (Address × Nat))
      (h : buyFarmerBatch s sender value ts canReceive farmerBatchId qtyKg
        = .ok (s', outs)) :
      StepQ s s'
  | splitDistributorBatch (s s' : State) (sender ts distributorBatchId : Nat)
      (splitQuantities pricesPerKg : List Nat) (ipfsHashes : List String)
      (outs : List (Address × Nat))
      (h : splitDistributorBatch s sender ts distributorBatchId splitQuantities
        pricesPerKg ipfsHashes = .ok (s', outs)) :
      StepQ s s'
  | listPack (s s' : State) (sender packId visibility optionalPrivateAddress : Nat)
      (outs : List (Address × Nat))
      (h : listPack s sender packId visibility optionalPrivateAddress
        = .ok (s', outs)) :
      StepQ s s'
  | createBuyRequest (s s' : State) (sender value ts packId qtyKg : Nat)
      (wantsRetailer : Bool) (outs : List (Address × Nat))
      (h : createBuyRequest s sender value ts packId qtyKg wantsRetailer
        = .ok (s', outs)) :
      StepQ s s'
  | approveBuyRequest (s s' : State) (sender ts : Nat)
      (canReceive : Address → Bool) (requestId : Nat) (accept : Bool)
      (outs : List (Address × Nat))
      (h : approveBuyRequest s sender ts canReceive requestId accept
        = .ok (s', outs)) :
      StepQ s s'
  | splitRetailUnit (s s' : State) (sender ts unitId : Nat)
      (unitQuantities unitPricesPerKg : List Nat) (ipfsHashes : List String)
      (outs : List (Address × Nat))
      (h : splitRetailUnit s sender ts unitId unitQuantities unitPricesPerKg
        ipfsHashes = .ok (s', outs)) :
      StepQ s s'
  | listUnitForCustomers (s s' : State) (sender unitId : Nat)
      (outs : List (Address × Nat))
      (h : listUnitForCustomers s sender unitId = .ok (s', outs)) :
      StepQ s s'
  | buyRetailUnit (s s' : State) (sender value ts : Nat)
      (canReceive : Address → Bool) (unitId qtyKg : Nat)
      (outs : List (Address × Nat))
      (h : buyRetailUnit s sender value ts canReceive unitId qtyKg
        = .ok (s', outs)) :
      StepQ s s'
  | withdraw (s s' : State) (sender : Nat) (canReceive : Address → Bool)
      (outs : List (Address × Nat))
      (h : withdraw s sender canReceive = .ok (s', outs)) :
      StepQ s s'
  | receiveEther (s : State) (sender value : Nat) :
      StepQ s (receiveEther s sender value)

/-- Full transition relation: every external call of the contract. -/
inductive Step : State → State → Prop
  | conserve (s s' : State) (h : StepQ s s') : Step s s'
  | updateProductQty (s s' : State) (sender batchId newQuantityKg newPricePerKg
      newVisibility : Nat) (newIpfsHash : String) (setActive : Bool)
      (outs : List (Address × Nat))
      (h : updateProduct s sender batchId newQuantityKg newPricePerKg
        newVisibility newIpfsHash setActive = .ok (s', outs)) :
      Step s s'

/-- Ledger states reachable from deployment by deployer at time ts. -/
def ReachableFrom (deployer ts : Nat) (s : State) : Prop :=
  Relation.ReflTransGen Step (initialState deployer ts) s

/-!  A concrete run of the contract, used to exhibit reachable states.
Addresses: 1 deployer/Admin, 2 farmer, 3 distributor, 4 buyer (later
Retailer), 5 customer, 6 buyer with a still-pending role request. -/

def demo0 : State := initialState 1 0

def demo1 : State := okSt (requestRole demo0 2 1 1 "f2" "m2")

def demo2 : State := okSt (approveRole demo1 1 2 2 1)

def demo3 : State := okSt (requestRole demo2 3 3 2 "d3" "m3")

def demo4 : State := okSt (approveRole demo3 1 4 3 2)

def demo5 : State := okSt (addProduct demo4 2 5 "Rice" "Kharif" 120 100 5 "Guntur" 1 "")

def demo6 : State := okSt (buyFarmerBatch demo5 3 200 6 alwaysPay 1 40)

def demo7 : State := okSt (splitDistributorBatch demo6 3 7 1 [15, 25] [7, 7] ["", ""])

def demo8 : State := okSt (createBuyRequest demo7 4 105 8 1 15 true)

def demo9 : State := okSt (approveBuyRequest demo8 3 9 alwaysPay 1 true)

def demo10 : State := okSt (requestRole demo9 6 10 1 "f6" "m6")

def demo11 : State := okSt (createBuyRequest demo10 6 175 11 2 25 true)

def demo12 : State := okSt (approveBuyRequest demo11 3 12 alwaysPay 2 true)

/-- Branch of the run at demo7: the Admin itself requests the pack with
wantsRetailer set. -/
def demoAdminReq : State := okSt (createBuyRequest demo7 1 105 8 1 15 true)

def demoAdminAcc : State := okSt (approveBuyRequest demoAdminReq 3 9 alwaysPay 1 true)

/-- Branch of the run at demo9: the retailer splits retail unit 1. -/
def demoUnitSplit : State := okSt (splitRetailUnit demo9 4 13 1 [5] [9] [""])

/-- A ledger configuration in which an open request asks pack 1 for more
than it still holds: the shape left behind when a pack is drained by one
accepted request while a second request on it is still open. -/
def demoOversold : State :=
  { initialState 1 0 with
    users := Function.update (initialState 1 0).users 3
      { UserInfo.zero with role := Role.Distributor, exists' := true },
    buyRequestCounter := 2,
    buyRequests := Function.update (fun _ => BuyRequest.zero) 2
      { requestId := 2, packId := 1, requester := 5, qtyKg := 15,
        wantsRetailer := false, amountPaid := 105, resolved := false,
        accepted := false, createdAt := 9 },
    retailPackCounter := 1,
    retailPacks := Function.update (fun _ => RetailPack.zero) 1
      { packId := 1, distributorBatchId := 1, distributor := 3,
        quantityKg := 0, pricePerKg := 7, visibility := .Private,
        privateBuyer := 0, available := false, ipfsHash := "",
        createdAt := 7 } }

/-!  Quantity bookkeeping.  Records are numbered 1..counter; sumN sums a
function over that id range. -/

def sumN (n : Nat) (f : Nat → Nat) : Nat :=
  (Finset.range n).sum fun i => f (i + 1)

/-- Total quantity requested by a zipped split-argument list. -/
def sumQ (L : List ((Nat × Nat) × String)) : Nat :=
  sumList (L.map fun x => x.1.1)

/-- Current quantity a distributor batch holds from farmer product P. -/
def dbContrib (s : State) (P i : Nat) : Nat :=
  if (s.distributorBatches i).originBatchId = P
  then (s.distributorBatches i).quantityKg else 0

/-- Sum over all distributor batches of the quantity held from P: the sum
named by the conservation claim. -/
def dbQtySum (s : State) (P : Nat) : Nat :=
  sumN s.distributorBatchCounter (dbContrib s P)

/-- Farmer batch a retail pack descends from, through its distributor batch. -/
def packOriginOf (s : State) (i : Nat) : Nat :=
  (s.distributorBatches (s.retailPacks i).distributorBatchId).originBatchId

def packContrib (s : State) (P i : Nat) : Nat :=
  if packOriginOf s i = P then (s.retailPacks i).quantityKg else 0

def packQtySum (s : State) (P : Nat) : Nat :=
  sumN s.retailPackCounter (packContrib s P)

/-- Farmer batch a retail unit descends from, through pack and batch. -/
def unitOriginOf (s : State) (i : Nat) : Nat :=
  packOriginOf s (s.retailUnits i).parentPackId

def unitContrib (s : State) (P i : Nat) : Nat :=
  if unitOriginOf s i = P then (s.retailUnits i).quantityKg else 0

def unitQtySum (s : State) (P : Nat) : Nat :=
  sumN s.retailUnitCounter (unitContrib s P)

/-- Farmer batch a recorded purchase descends from, through its unit. -/
def purchaseOriginOf (s : State) (i : Nat) : Nat :=
  unitOriginOf s (s.purchaseRecords i).unitId

def purchaseContrib (s : State) (P i : Nat) : Nat :=
  if purchaseOriginOf s i = P then (s.purchaseRecords i).qtyKg else 0

def purchaseQtySum (s : State) (P : Nat) : Nat :=
  sumN s.purchaseCounter (purchaseContrib s P)

/-- Total quantity of farmer product P still accounted for anywhere in the
ledger: what remains with the farmer plus everything held in distributor
batches, retail packs, retail units and recorded purchases descending
from P. -/
def conserved (s : State) (P : Nat) : Nat :=
  (s.farmerProducts P).quantityKg + dbQtySum s P + packQtySum s P
    + unitQtySum s P + purchaseQtySum s P

/-- Structural well-formedness of the ledger: a record with a nonzero id
sits at an index in 1..counter, and every parent link points into the range
of the parent table.  It holds at deployment and is preserved by every
call. -/
structure Inv (s : State) : Prop where
  fpIdRange : ∀ i, (s.farmerProducts i).batchId ≠ 0 →
    1 ≤ i ∧ i ≤ s.farmerProductCounter
  dbIdRange : ∀ i, (s.distributorBatches i).batchId ≠ 0 →
    1 ≤ i ∧ i ≤ s.distributorBatchCounter
  packIdRange : ∀ i, (s.retailPacks i).packId ≠ 0 →
    1 ≤ i ∧ i ≤ s.retailPackCounter
  unitIdRange : ∀ i, (s.retailUnits i).unitId ≠ 0 →
    1 ≤ i ∧ i ≤ s.retailUnitCounter
  dbOrigin : ∀ i, 1 ≤ i → i ≤ s.distributorBatchCounter →
    1 ≤ (s.distributorBatches i).originBatchId ∧
      (s.distributorBatches i).originBatchId ≤ s.farmerProductCounter
  packLink : ∀ i, 1 ≤ i → i ≤ s.retailPackCounter →
    1 ≤ (s.retailPacks i).distributorBatchId ∧
      (s.retailPacks i).distributorBatchId ≤ s.distributorBatchCounter
  unitLink : ∀ i, 1 ≤ i → i ≤ s.retailUnitCounter →
    1 ≤ (s.retailUnits i).parentPackId ∧
      (s.retailUnits i).parentPackId ≤ s.retailPackCounter
  purchaseLink : ∀ i, 1 ≤ i → i ≤ s.purchaseCounter →
    1 ≤ (s.purchaseRecords i).unitId ∧
      (s.purchaseRecords i).unitId ≤ s.retailUnitCounter

/-- The identity invariant of the spec: a pending request implies no role. -/
def UserInv (s : State) : Prop :=
  ∀ a, (s.users a).requested = true → (s.users a).role = Role.None

/-- Conservation contract of one call: structural well-formedness is kept,
the conserved total of every existing product is unchanged, and every
product numbered during the call accounts exactly for its own stored
quantity. -/
def QtyPost (s s' : State) : Prop :=
  Inv s' ∧
  (∀ P, 1 ≤ P → P ≤ s.farmerProductCounter → conserved s' P = conserved s P) ∧
  (∀ P, s.farmerProductCounter < P → P ≤ s'.farmerProductCounter →
    conserved s' P = (s'.farmerProducts P).quantityKg)

theorem demo1_reachable : ReachableFrom 1 0 demo1 :=
  Relation.ReflTransGen.refl.tail
    (Step.conserve _ _ (StepQ.requestRole _ _ 2 1 1 "f2" "m2" [] rfl))

theorem demo2_reachable : ReachableFrom 1 0 demo2 :=
  demo1_reachable.tail
    (Step.conserve _ _ (StepQ.approveRole _ _ 1 2 2 1 [] rfl))

theorem demo3_reachable : ReachableFrom 1 0 demo3 :=
  demo2_reachable.tail
    (Step.conserve _ _ (StepQ.requestRole _ _ 3 3 2 "d3" "m3" [] rfl))

theorem demo4_reachable : ReachableFrom 1 0 demo4 :=
  demo3_reachable.tail
    (Step.conserve _ _ (StepQ.approveRole _ _ 1 4 3 2 [] rfl))

theorem demo5_reachable : ReachableFrom 1 0 demo5 :=
  demo4_reachable.tail
    (Step.conserve _ _
      (StepQ.addProduct _ _ 2 5 "Rice" "Kharif" 120 100 5 "Guntur" 1 "" [] rfl))

theorem demo6_reachable : ReachableFrom 1 0 demo6 :=
  demo5_reachable.tail
    (Step.conserve _ _ (StepQ.buyFarmerBatch _ _ 3 200 6 alwaysPay 1 40 [(2, 200)] rfl))

theorem demo7_reachable : ReachableFrom 1 0 demo7 :=
  demo6_reachable.tail
    (Step.conserve _ _
      (StepQ.splitDistributorBatch _ _ 3 7 1 [15, 25] [7, 7] ["", ""] [] rfl))

theorem demo8_reachable : ReachableFrom 1 0 demo8 :=
  demo7_reachable.tail
    (Step.conserve _ _ (StepQ.createBuyRequest _ _ 4 105 8 1 15 true [] rfl))

theorem demo9_reachable : ReachableFrom 1 0 demo9 :=
  demo8_reachable.tail
    (Step.conserve _ _ (StepQ.approveBuyRequest _ _ 3 9 alwaysPay 1 true [(3, 105)] rfl))

theorem demo10_reachable : ReachableFrom 1 0 demo10 :=
  demo9_reachable.tail
    (Step.conserve _ _ (StepQ.requestRole _ _ 6 10 1 "f6" "m6" [] rfl))

theorem demo11_reachable : ReachableFrom 1 0 demo11 :=
  demo10_reachable.tail
    (Step.conserve _ _ (StepQ.createBuyRequest _ _ 6 175 11 2 25 true [] rfl))

theorem demo12_reachable : ReachableFrom 1 0 demo12 :=
  demo11_reachable.tail
    (Step.conserve _ _ (StepQ.approveBuyRequest _ _ 3 12 alwaysPay 2 true [(3, 175)] rfl))

theorem demoAdminReq_reachable : ReachableFrom 1 0 demoAdminReq :=
  demo7_reachable.tail
    (Step.conserve _ _ (StepQ.createBuyRequest _ _ 1 105 8 1 15 true [] rfl))

theorem demoAdminAcc_reachable : ReachableFrom 1 0 demoAdminAcc :=
  demoAdminReq_reachable.tail
    (Step.conserve _ _ (StepQ.approveBuyRequest _ _ 3 9 alwaysPay 1 true [(3, 105)] rfl))

/-!  Arithmetic of sumN. -/

theorem sumN_succ (n : Nat) (f : Nat → Nat) :
    sumN (n + 1) f = sumN n f + f (n + 1) := by
  simp [sumN, Finset.sum_range_succ]

theorem sumN_congr {n : Nat} {f g : Nat → Nat}
    (h : ∀ i, 1 ≤ i → i ≤ n → f i = g i) : sumN n f = sumN n g := by
  refine Finset.sum_congr rfl fun i hi => ?_
  have := Finset.mem_range.mp hi
  exact h (i + 1) (by omega) (by omega)

theorem sumN_zero_of {n : Nat} {f : Nat → Nat}
    (h : ∀ i, 1 ≤ i → i ≤ n → f i = 0) : sumN n f = 0 := by
  refine Finset.sum_eq_zero fun i hi => ?_
  have := Finset.mem_range.mp hi
  exact h (i + 1) (by omega) (by omega)

/-- Replacing the value at one in-range index: exchange form, subtraction
free. -/
theorem sumN_exchange {n k : Nat} (hk1 : 1 ≤ k) (hkn : k ≤ n) {f g : Nat → Nat}
    (h : ∀ i, 1 ≤ i → i ≤ n → i ≠ k → f i = g i) :
    sumN n f + g k = sumN n g + f k := by
  induction n with
  | zero => omega
  | succ m ih =>
    rcases Nat.lt_or_ge k (m + 1) with hlt | hge
    · have hkm : k ≤ m := by omega
      have hrec := ih hkm fun i h1 h2 h3 => h i h1 (by omega) h3
      have hfm : f (m + 1) = g (m + 1) := h (m + 1) (by omega) (by omega) (by omega)
      rw [sumN_succ, sumN_succ]
      omega
    · have hk : k = m + 1 := by omega
      subst hk
      have hfg : sumN m f = sumN m g :=
        sumN_congr fun i h1 h2 => h i h1 (by omega) (by omega)
      rw [sumN_succ, sumN_succ]
      omega

/-!  Behaviour of the record-creating loop shared by the two split
functions. -/

theorem recLoop_fst {R : Type} (mk : Nat → (Nat × Nat) × String → R) :
    ∀ (L : List ((Nat × Nat) × String)) (n : Nat) (m : Nat → R),
    (recLoop mk (n, m) L).1 = n + L.length := by
  intro L
  induction L with
  | nil => intro n m; simp [recLoop]
  | cons x rest ih =>
    intro n m
    show (recLoop mk (n + 1, _) rest).1 = _
    rw [ih]
    simp; omega

theorem recLoop_preserve {R : Type} (mk : Nat → (Nat × Nat) × String → R) :
    ∀ (L : List ((Nat × Nat) × String)) (n : Nat) (m : Nat → R) (i : Nat),
    i ≤ n → (recLoop mk (n, m) L).2 i = m i := by
  intro L
  induction L with
  | nil => intro n m i _; rfl
  | cons x rest ih =>
    intro n m i hi
    show (recLoop mk (n + 1, Function.update m (n + 1) (mk (n + 1) x)) rest).2 i = m i
    rw [ih (n + 1) (Function.update m (n + 1) (mk (n + 1) x)) i (by omega)]
    exact Function.update_noteq (by omega) _ m

theorem recLoop_get {R : Type} (mk : Nat → (Nat × Nat) × String → R) :
    ∀ (L : List ((Nat × Nat) × String)) (n : Nat) (m : Nat → R) (j : Nat)
    (hj : j < L.length),
    (recLoop mk (n, m) L).2 (n + 1 + j) = mk (n + 1 + j) (L.get ⟨j, hj⟩) := by
  intro L
  induction L with
  | nil => intro n m j hj; simp at hj
  | cons x rest ih =>
    intro n m j hj
    cases j with
    | zero =>
      show (recLoop mk (n + 1, Function.update m (n + 1) (mk (n + 1) x)) rest).2 (n + 1 + 0)
        = mk (n + 1 + 0) ((x :: rest).get ⟨0, hj⟩)
      rw [Nat.add_zero, recLoop_preserve mk rest (n + 1) _ (n + 1) le_rfl,
        Function.update_same]
      rfl
    | succ j' =>
      have hj' : j' < rest.length := by simpa using hj
      show (recLoop mk (n + 1, Function.update m (n + 1) (mk (n + 1) x)) rest).2 (n + 1 + (j' + 1))
        = mk (n + 1 + (j' + 1)) ((x :: rest).get ⟨j' + 1, hj⟩)
      have hg : ((x :: rest).get ⟨j' + 1, hj⟩) = rest.get ⟨j', hj'⟩ := rfl
      have harith : n + 1 + (j' + 1) = n + 1 + 1 + j' := by omega
      rw [hg, harith]
      exact ih (n + 1) (Function.update m (n + 1) (mk (n + 1) x)) j' hj'

theorem recLoop_id {R : Type} (mk : Nat → (Nat × Nat) × String → R)
    (idF : R → Nat) :
    ∀ (L : List ((Nat × Nat) × String)) (n : Nat) (m : Nat → R) (i : Nat),
    idF ((recLoop mk (n, m) L).2 i) ≠ 0 →
    idF (m i) ≠ 0 ∨ (n < i ∧ i ≤ n + L.length) := by
  intro L
  induction L with
  | nil => intro n m i h; exact Or.inl h
  | cons x rest ih =>
    intro n m i h
    have h' := ih (n + 1) (Function.update m (n + 1) (mk (n + 1) x)) i h
    rcases h' with h' | h'
    · by_cases hi : i = n + 1
      · subst hi; right; constructor
        · omega
        · simp only [List.length_cons]; omega
      · rw [Function.update_noteq hi] at h'
        exact Or.inl h'
    · right; constructor
      · omega
      · simp only [List.length_cons]; omega

/-- Sum of a per-record value over a state extended by the loop, when the
value of each fresh record does not depend on its id. -/
theorem recLoop_sum {R : Type} (mk : Nat → (Nat × Nat) × String → R)
    (F : R → Nat) (G : (Nat × Nat) × String → Nat)
    (hmk : ∀ i x, F (mk i x) = G x) :
    ∀ (L : List ((Nat × Nat) × String)) (n : Nat) (m : Nat → R),
    sumN (n + L.length) (fun i => F ((recLoop mk (n, m) L).2 i))
      = sumN n (fun i => F (m i)) + sumList (L.map G) := by
  intro L
  induction L with
  | nil =>
    intro n m
    show sumN (n + 0) (fun i => F ((n, m).2 i)) = sumN n (fun i => F (m i)) + sumList []
    simp [sumList]
  | cons x rest ih =>
    intro n m
    have harith : n + (x :: rest).length = (n + 1) + rest.length := by
      simp; omega
    rw [harith]
    show sumN _ (fun i => F ((recLoop mk (n + 1, _) rest).2 i)) = _
    rw [ih (n + 1) (Function.update m (n + 1) (mk (n + 1) x))]
    have hbase : sumN (n + 1) (fun i => F (Function.update m (n + 1) (mk (n + 1) x) i))
        = sumN n (fun i => F (m i)) + G x := by
      rw [sumN_succ]
      have h1 : sumN n (fun i => F (Function.update m (n + 1) (mk (n + 1) x) i))
          = sumN n (fun i => F (m i)) :=
        sumN_congr fun i h1 h2 => by rw [Function.update_noteq (by omega)]
      rw [h1, Function.update_same, hmk]
    rw [hbase]
    show _ = _ + (G x + sumList (rest.map G))
    omega

/-!  trackUser touches only the roster fields. -/

theorem trackUser_users (s : State) (a : Address) : (trackUser s a).users = s.users := by
  unfold trackUser; split <;> rfl

theorem trackUser_owner (s : State) (a : Address) : (trackUser s a).owner = s.owner := by
  unfold trackUser; split <;> rfl

theorem trackUser_fpc (s : State) (a : Address) :
    (trackUser s a).farmerProductCounter = s.farmerProductCounter := by
  unfold trackUser; split <;> rfl

theorem trackUser_dbc (s : State) (a : Address) :
    (trackUser s a).distributorBatchCounter = s.distributorBatchCounter := by
  unfold trackUser; split <;> rfl

theorem trackUser_rpc (s : State) (a : Address) :
    (trackUser s a).retailPackCounter = s.retailPackCounter := by
  unfold trackUser; split <;> rfl

theorem trackUser_ruc (s : State) (a : Address) :
    (trackUser s a).retailUnitCounter = s.retailUnitCounter := by
  unfold trackUser; split <;> rfl

theorem trackUser_brc (s : State) (a : Address) :
    (trackUser s a).buyRequestCounter = s.buyRequestCounter := by
  unfold trackUser; split <;> rfl

theorem trackUser_pc (s : State) (a : Address) :
    (trackUser s a).purchaseCounter = s.purchaseCounter := by
  unfold trackUser; split <;> rfl

theorem trackUser_fp (s : State) (a : Address) :
    (trackUser s a).farmerProducts = s.farmerProducts := by
  unfold trackUser; split <;> rfl

theorem trackUser_db (s : State) (a : Address) :
    (trackUser s a).distributorBatches = s.distributorBatches := by
  unfold trackUser; split <;> rfl

theorem trackUser_rp (s : State) (a : Address) :
    (trackUser s a).retailPacks = s.retailPacks := by
  unfold trackUser; split <;> rfl

theorem trackUser_ru (s : State) (a : Address) :
    (trackUser s a).retailUnits = s.retailUnits := by
  unfold trackUser; split <;> rfl

theorem trackUser_br (s : State) (a : Address) :
    (trackUser s a).buyRequests = s.buyRequests := by
  unfold trackUser; split <;> rfl

theorem trackUser_pr (s : State) (a : Address) :
    (trackUser s a).purchaseRecords = s.purchaseRecords := by
  unfold trackUser; split <;> rfl

theorem trackUser_pw (s : State) (a : Address) :
    (trackUser s a).pendingWithdrawals = s.pendingWithdrawals := by
  unfold trackUser; split <;> rfl

/-!  The conclusion of the per-call conservation lemma: the structural
invariant is preserved, the accounted total of every existing farmer
product is unchanged, and a freshly created farmer product accounts
exactly for its stored quantity. -/

/-- A call that leaves all five inventory tables and counters intact
preserves Inv and every conserved total. -/
theorem inv_conserved_frame (s s' : State)
    (hc1 : s'.farmerProductCounter = s.farmerProductCounter)
    (hc2 : s'.distributorBatchCounter = s.distributorBatchCounter)
    (hc3 : s'.retailPackCounter = s.retailPackCounter)
    (hc4 : s'.retailUnitCounter = s.retailUnitCounter)
    (hc5 : s'.purchaseCounter = s.purchaseCounter)
    (hm1 : s'.farmerProducts = s.farmerProducts)
    (hm2 : s'.distributorBatches = s.distributorBatches)
    (hm3 : s'.retailPacks = s.retailPacks)
    (hm4 : s'.retailUnits = s.retailUnits)
    (hm5 : s'.purchaseRecords = s.purchaseRecords)
    (hI : Inv s) : QtyPost s s' := by
  refine ⟨?_, ?_, ?_⟩
  · constructor
    · intro i hne; rw [hm1] at hne; rw [hc1]; exact hI.fpIdRange i hne
    · intro i hne; rw [hm2] at hne; rw [hc2]; exact hI.dbIdRange i hne
    · intro i hne; rw [hm3] at hne; rw [hc3]; exact hI.packIdRange i hne
    · intro i hne; rw [hm4] at hne; rw [hc4]; exact hI.unitIdRange i hne
    · intro i h1 h2; rw [hc2] at h2; rw [hm2, hc1]; exact hI.dbOrigin i h1 h2
    · intro i h1 h2; rw [hc3] at h2; rw [hm3, hc2]; exact hI.packLink i h1 h2
    · intro i h1 h2; rw [hc4] at h2; rw [hm4, hc3]; exact hI.unitLink i h1 h2
    · intro i h1 h2; rw [hc5] at h2; rw [hm5, hc4]; exact hI.purchaseLink i h1 h2
  · intro P _ _
    have e1 : dbContrib s' = dbContrib s := by
      funext Q i; unfold dbContrib; rw [hm2]
    have e2 : packContrib s' = packContrib s := by
      funext Q i; unfold packContrib packOriginOf; rw [hm2, hm3]
    have e3 : unitContrib s' = unitContrib s := by
      funext Q i; unfold unitContrib unitOriginOf packOriginOf; rw [hm2, hm3, hm4]
    have e4 : purchaseContrib s' = purchaseContrib s := by
      funext Q i
      unfold purchaseContrib purchaseOriginOf unitOriginOf packOriginOf
      rw [hm2, hm3, hm4, hm5]
    unfold conserved dbQtySum packQtySum unitQtySum purchaseQtySum
    rw [hm1, hc2, hc3, hc4, hc5, e1, e2, e3, e4]
  · intro P h1 h2; rw [hc1] at h2; omega

theorem conservePost_requestRole (s s' : State) (sender ts role : Nat)
    (idHash meta : String) (outs : List (Address × Nat)) (hI : Inv s)
    (h : requestRole s sender ts role idHash meta = .ok (s', outs)) :
    QtyPost s s' := by
  simp only [requestRole] at h
  split_ifs at h
  simp only [Except.ok.injEq, Prod.mk.injEq] at h
  obtain ⟨hA, hB⟩ := h
  subst hA
  exact inv_conserved_frame _ _ (trackUser_fpc _ _) (trackUser_dbc _ _)
      (trackUser_rpc _ _) (trackUser_ruc _ _) (trackUser_pc _ _)
      (trackUser_fp _ _) (trackUser_db _ _) (trackUser_rp _ _)
      (trackUser_ru _ _) (trackUser_pr _ _) hI

theorem conservePost_approveRole (s s' : State) (sender ts user role : Nat)
    (outs : List (Address × Nat)) (hI : Inv s)
    (h : approveRole s sender ts user role = .ok (s', outs)) :
    QtyPost s s' := by
  simp only [approveRole] at h
  split_ifs at h
  simp only [Except.ok.injEq, Prod.mk.injEq] at h
  obtain ⟨hA, hB⟩ := h
  subst hA
  exact inv_conserved_frame _ _ (trackUser_fpc _ _) (trackUser_dbc _ _)
      (trackUser_rpc _ _) (trackUser_ruc _ _) (trackUser_pc _ _)
      (trackUser_fp _ _) (trackUser_db _ _) (trackUser_rp _ _)
      (trackUser_ru _ _) (trackUser_pr _ _) hI

theorem conservePost_revokeRole (s s' : State) (sender user : Nat)
    (outs : List (Address × Nat)) (hI : Inv s)
    (h : revokeRole s sender user = .ok (s', outs)) :
    QtyPost s s' := by
  simp only [revokeRole] at h
  split_ifs at h
  simp only [Except.ok.injEq, Prod.mk.injEq] at h
  obtain ⟨hA, hB⟩ := h
  subst hA
  exact inv_conserved_frame _ _ rfl rfl rfl rfl rfl rfl rfl rfl rfl rfl hI

theorem conservePost_transferOwnership (s s' : State) (sender newOwner : Nat)
    (outs : List (Address × Nat)) (hI : Inv s)
    (h : transferOwnership s sender newOwner = .ok (s', outs)) :
    QtyPost s s' := by
  simp only [transferOwnership] at h
  split_ifs at h
  simp only [Except.ok.injEq, Prod.mk.injEq] at h
  obtain ⟨hA, hB⟩ := h
  subst hA
  exact inv_conserved_frame _ _ rfl rfl rfl rfl rfl rfl rfl rfl rfl rfl hI

theorem conservePost_renounceOwnership (s s' : State) (sender : Nat)
    (outs : List (Address × Nat)) (hI : Inv s)
    (h : renounceOwnership s sender = .ok (s', outs)) :
    QtyPost s s' := by
  simp only [renounceOwnership] at h
  split_ifs at h
  simp only [Except.ok.injEq, Prod.mk.injEq] at h
  obtain ⟨hA, hB⟩ := h
  subst hA
  exact inv_conserved_frame _ _ rfl rfl rfl rfl rfl rfl rfl rfl rfl rfl hI

theorem conservePost_createBuyRequest (s s' : State)
    (sender value ts packId qtyKg : Nat) (wantsRetailer : Bool)
    (outs : List (Address × Nat)) (hI : Inv s)
    (h : createBuyRequest s sender value ts packId qtyKg wantsRetailer
      = .ok (s', outs)) : QtyPost s s' := by
  simp only [createBuyRequest] at h
  split_ifs at h
  simp only [Except.ok.injEq, Prod.mk.injEq] at h
  obtain ⟨hA, hB⟩ := h
  subst hA
  exact inv_conserved_frame _ _ rfl rfl rfl rfl rfl rfl rfl rfl rfl rfl hI

theorem conservePost_withdraw (s s' : State) (sender : Nat)
    (canReceive : Address → Bool) (outs : List (Address × Nat)) (hI : Inv s)
    (h : withdraw s sender canReceive = .ok (s', outs)) : QtyPost s s' := by
  simp only [withdraw] at h
  split_ifs at h
  simp only [Except.ok.injEq, Prod.mk.injEq] at h
  obtain ⟨hA, hB⟩ := h
  subst hA
  exact inv_conserved_frame _ _ rfl rfl rfl rfl rfl rfl rfl rfl rfl rfl hI

theorem conservePost_receiveEther (s : State) (sender value : Nat) (hI : Inv s) :
    QtyPost s (receiveEther s sender value) :=
  inv_conserved_frame _ _ rfl rfl rfl rfl rfl rfl rfl rfl rfl rfl hI

/-!  Origin chains stay inside the table ranges. -/

theorem packOriginOf_le (s : State) (hI : Inv s) (i : Nat) (h1 : 1 ≤ i)
    (h2 : i ≤ s.retailPackCounter) :
    1 ≤ packOriginOf s i ∧ packOriginOf s i ≤ s.farmerProductCounter := by
  have hl := hI.packLink i h1 h2
  exact hI.dbOrigin _ hl.1 hl.2

theorem unitOriginOf_le (s : State) (hI : Inv s) (i : Nat) (h1 : 1 ≤ i)
    (h2 : i ≤ s.retailUnitCounter) :
    1 ≤ unitOriginOf s i ∧ unitOriginOf s i ≤ s.farmerProductCounter := by
  have hl := hI.unitLink i h1 h2
  exact packOriginOf_le s hI _ hl.1 hl.2

theorem purchaseOriginOf_le (s : State) (hI : Inv s) (i : Nat) (h1 : 1 ≤ i)
    (h2 : i ≤ s.purchaseCounter) :
    1 ≤ purchaseOriginOf s i ∧ purchaseOriginOf s i ≤ s.farmerProductCounter := by
  have hl := hI.purchaseLink i h1 h2
  exact unitOriginOf_le s hI _ hl.1 hl.2

/-- A call that rewrites farmer products without touching any batchId or
quantityKg (and leaves everything else intact) preserves Inv and conserved. -/
theorem inv_conserved_fp_pointwise (s s' : State)
    (hc1 : s'.farmerProductCounter = s.farmerProductCounter)
    (hc2 : s'.distributorBatchCounter = s.distributorBatchCounter)
    (hc3 : s'.retailPackCounter = s.retailPackCounter)
    (hc4 : s'.retailUnitCounter = s.retailUnitCounter)
    (hc5 : s'.purchaseCounter = s.purchaseCounter)
    (hm2 : s'.distributorBatches = s.distributorBatches)
    (hm3 : s'.retailPacks = s.retailPacks)
    (hm4 : s'.retailUnits = s.retailUnits)
    (hm5 : s'.purchaseRecords = s.purchaseRecords)
    (hp : ∀ i, (s'.farmerProducts i).batchId = (s.farmerProducts i).batchId ∧
      (s'.farmerProducts i).quantityKg = (s.farmerProducts i).quantityKg)
    (hI : Inv s) : QtyPost s s' := by
  refine ⟨?_, ?_, ?_⟩
  · constructor
    · intro i hne; rw [(hp i).1] at hne; rw [hc1]; exact hI.fpIdRange i hne
    · intro i hne; rw [hm2] at hne; rw [hc2]; exact hI.dbIdRange i hne
    · intro i hne; rw [hm3] at hne; rw [hc3]; exact hI.packIdRange i hne
    · intro i hne; rw [hm4] at hne; rw [hc4]; exact hI.unitIdRange i hne
    · intro i h1 h2; rw [hc2] at h2; rw [hm2, hc1]; exact hI.dbOrigin i h1 h2
    · intro i h1 h2; rw [hc3] at h2; rw [hm3, hc2]; exact hI.packLink i h1 h2
    · intro i h1 h2; rw [hc4] at h2; rw [hm4, hc3]; exact hI.unitLink i h1 h2
    · intro i h1 h2; rw [hc5] at h2; rw [hm5, hc4]; exact hI.purchaseLink i h1 h2
  · intro P _ _
    have e1 : dbContrib s' = dbContrib s := by
      funext Q i; unfold dbContrib; rw [hm2]
    have e2 : packContrib s' = packContrib s := by
      funext Q i; unfold packContrib packOriginOf; rw [hm2, hm3]
    have e3 : unitContrib s' = unitContrib s := by
      funext Q i; unfold unitContrib unitOriginOf packOriginOf; rw [hm2, hm3, hm4]
    have e4 : purchaseContrib s' = purchaseContrib s := by
      funext Q i
      unfold purchaseContrib purchaseOriginOf unitOriginOf packOriginOf
      rw [hm2, hm3, hm4, hm5]
    unfold conserved dbQtySum packQtySum unitQtySum purchaseQtySum
    rw [(hp P).2, hc2, hc3, hc4, hc5, e1, e2, e3, e4]
  · intro P h1 h2; rw [hc1] at h2; omega

/-- A call that rewrites retail packs without touching any packId,
distributorBatchId or quantityKg preserves Inv and conserved. -/
theorem inv_conserved_pack_pointwise (s s' : State)
    (hc1 : s'.farmerProductCounter = s.farmerProductCounter)
    (hc2 : s'.distributorBatchCounter = s.distributorBatchCounter)
    (hc3 : s'.retailPackCounter = s.retailPackCounter)
    (hc4 : s'.retailUnitCounter = s.retailUnitCounter)
    (hc5 : s'.purchaseCounter = s.purchaseCounter)
    (hm1 : s'.farmerProducts = s.farmerProducts)
    (hm2 : s'.distributorBatches = s.distributorBatches)
    (hm4 : s'.retailUnits = s.retailUnits)
    (hm5 : s'.purchaseRecords = s.purchaseRecords)
    (hp : ∀ i, (s'.retailPacks i).packId = (s.retailPacks i).packId ∧
      (s'.retailPacks i).distributorBatchId = (s.retailPacks i).distributorBatchId ∧
      (s'.retailPacks i).quantityKg = (s.retailPacks i).quantityKg)
    (hI : Inv s) : QtyPost s s' := by
  refine ⟨?_, ?_, ?_⟩
  · constructor
    · intro i hne; rw [hm1] at hne; rw [hc1]; exact hI.fpIdRange i hne
    · intro i hne; rw [hm2] at hne; rw [hc2]; exact hI.dbIdRange i hne
    · intro i hne; rw [(hp i).1] at hne; rw [hc3]; exact hI.packIdRange i hne
    · intro i hne; rw [hm4] at hne; rw [hc4]; exact hI.unitIdRange i hne
    · intro i h1 h2; rw [hc2] at h2; rw [hm2, hc1]; exact hI.dbOrigin i h1 h2
    · intro i h1 h2; rw [hc3] at h2; rw [(hp i).2.1, hc2]; exact hI.packLink i h1 h2
    · intro i h1 h2; rw [hc4] at h2; rw [hm4, hc3]; exact hI.unitLink i h1 h2
    · intro i h1 h2; rw [hc5] at h2; rw [hm5, hc4]; exact hI.purchaseLink i h1 h2
  · intro P _ _
    have e1 : dbContrib s' = dbContrib s := by
      funext Q i; unfold dbContrib; rw [hm2]
    have e2 : packContrib s' = packContrib s := by
      funext Q i; unfold packContrib packOriginOf
      rw [hm2, (hp i).2.1, (hp i).2.2]
    have e3 : unitContrib s' = unitContrib s := by
      funext Q i; unfold unitContrib unitOriginOf packOriginOf
      rw [hm2, hm4, (hp ((s.retailUnits i).parentPackId)).2.1]
    have e4 : purchaseContrib s' = purchaseContrib s := by
      funext Q i
      unfold purchaseContrib purchaseOriginOf unitOriginOf packOriginOf
      rw [hm2, hm4, hm5,
        (hp ((s.retailUnits (s.purchaseRecords i).unitId).parentPackId)).2.1]
    unfold conserved dbQtySum packQtySum unitQtySum purchaseQtySum
    rw [hm1, hc2, hc3, hc4, hc5, e1, e2, e3, e4]
  · intro P h1 h2; rw [hc1] at h2; omega

/-- A call that rewrites retail units without touching any unitId,
parentPackId or quantityKg preserves Inv and conserved. -/
theorem inv_conserved_unit_pointwise (s s' : State)
    (hc1 : s'.farmerProductCounter = s.farmerProductCounter)
    (hc2 : s'.distributorBatchCounter = s.distributorBatchCounter)
    (hc3 : s'.retailPackCounter = s.retailPackCounter)
    (hc4 : s'.retailUnitCounter = s.retailUnitCounter)
    (hc5 : s'.purchaseCounter = s.purchaseCounter)
    (hm1 : s'.farmerProducts = s.farmerProducts)
    (hm2 : s'.distributorBatches = s.distributorBatches)
    (hm3 : s'.retailPacks = s.retailPacks)
    (hm5 : s'.purchaseRecords = s.purchaseRecords)
    (hp : ∀ i, (s'.retailUnits i).unitId = (s.retailUnits i).unitId ∧
      (s'.retailUnits i).parentPackId = (s.retailUnits i).parentPackId ∧
      (s'.retailUnits i).quantityKg = (s.retailUnits i).quantityKg)
    (hI : Inv s) : QtyPost s s' := by
  refine ⟨?_, ?_, ?_⟩
  · constructor
    · intro i hne; rw [hm1] at hne; rw [hc1]; exact hI.fpIdRange i hne
    · intro i hne; rw [hm2] at hne; rw [hc2]; exact hI.dbIdRange i hne
    · intro i hne; rw [hm3] at hne; rw [hc3]; exact hI.packIdRange i hne
    · intro i hne; rw [(hp i).1] at hne; rw [hc4]; exact hI.unitIdRange i hne
    · intro i h1 h2; rw [hc2] at h2; rw [hm2, hc1]; exact hI.dbOrigin i h1 h2
    · intro i h1 h2; rw [hc3] at h2; rw [hm3, hc2]; exact hI.packLink i h1 h2
    · intro i h1 h2; rw [hc4] at h2; rw [(hp i).2.1, hc3]; exact hI.unitLink i h1 h2
    · intro i h1 h2; rw [hc5] at h2; rw [hm5, hc4]; exact hI.purchaseLink i h1 h2
  · intro P _ _
    have e1 : dbContrib s' = dbContrib s := by
      funext Q i; unfold dbContrib; rw [hm2]
    have e2 : packContrib s' = packContrib s := by
      funext Q i; unfold packContrib packOriginOf; rw [hm2, hm3]
    have e3 : unitContrib s' = unitContrib s := by
      funext Q i; unfold unitContrib unitOriginOf packOriginOf
      rw [hm2, hm3, (hp i).2.1, (hp i).2.2]
    have e4 : purchaseContrib s' = purchaseContrib s := by
      funext Q i
      unfold purchaseContrib purchaseOriginOf unitOriginOf packOriginOf
      rw [hm2, hm3, hm5, (hp ((s.purchaseRecords i).unitId)).2.1]
    unfold conserved dbQtySum packQtySum unitQtySum purchaseQtySum
    rw [hm1, hc2, hc3, hc4, hc5, e1, e2, e3, e4]
  · intro P h1 h2; rw [hc1] at h2; omega

theorem conservePost_listPack (s s' : State)
    (sender packId visibility optionalPrivateAddress : Nat)
    (outs : List (Address × Nat)) (hI : Inv s)
    (h : listPack s sender packId visibility optionalPrivateAddress
      = .ok (s', outs)) : QtyPost s s' := by
  simp only [listPack] at h
  split_ifs at h
  all_goals simp only [Except.ok.injEq, Prod.mk.injEq] at h
  all_goals obtain ⟨hA, hB⟩ := h
  all_goals subst hA
  all_goals
    refine inv_conserved_pack_pointwise _ _ rfl rfl rfl rfl rfl rfl rfl rfl rfl
      (fun i => ?_) hI
  all_goals dsimp only
  all_goals by_cases hi : i = packId
  · subst hi; rw [Function.update_same]; exact ⟨rfl, rfl, rfl⟩
  · rw [Function.update_noteq hi]; exact ⟨rfl, rfl, rfl⟩
  · subst hi; rw [Function.update_same]; exact ⟨rfl, rfl, rfl⟩
  · rw [Function.update_noteq hi]; exact ⟨rfl, rfl, rfl⟩

theorem conservePost_listUnitForCustomers (s s' : State) (sender unitId : Nat)
    (outs : List (Address × Nat)) (hI : Inv s)
    (h : listUnitForCustomers s sender unitId = .ok (s', outs)) :
    QtyPost s s' := by
  simp only [listUnitForCustomers] at h
  split_ifs at h
  simp only [Except.ok.injEq, Prod.mk.injEq] at h
  obtain ⟨hA, hB⟩ := h
  subst hA
  refine inv_conserved_unit_pointwise _ _ rfl rfl rfl rfl rfl rfl rfl rfl rfl
    (fun i => ?_) hI
  dsimp only
  by_cases hi : i = unitId
  · subst hi; rw [Function.update_same]; exact ⟨rfl, rfl, rfl⟩
  · rw [Function.update_noteq hi]; exact ⟨rfl, rfl, rfl⟩

theorem conservePost_updateProduct0 (s s' : State)
    (sender batchId newPricePerKg newVisibility : Nat) (newIpfsHash : String)
    (setActive : Bool) (outs : List (Address × Nat)) (hI : Inv s)
    (h : updateProduct s sender batchId 0 newPricePerKg newVisibility
      newIpfsHash setActive = .ok (s', outs)) : QtyPost s s' := by
  simp only [updateProduct] at h
  split_ifs at h
  all_goals try { exfalso; omega }
  all_goals simp only [Except.ok.injEq, Prod.mk.injEq] at h
  all_goals obtain ⟨hA, hB⟩ := h
  all_goals subst hA
  all_goals
    refine inv_conserved_fp_pointwise _ _ rfl rfl rfl rfl rfl rfl rfl rfl rfl
      (fun i => ?_) hI
  all_goals dsimp only
  all_goals by_cases hi : i = batchId
  all_goals first
    | (subst hi; rw [Function.update_same]; exact ⟨rfl, rfl⟩)
    | (rw [Function.update_noteq hi]; exact ⟨rfl, rfl⟩)

theorem conservePost_addProduct (s s' : State) (sender ts : Nat)
    (cropName cropPeriod : String) (daysToHarvest quantityKg pricePerKg : Nat)
    (location : String) (visibility : Nat) (ipfsHash : String)
    (outs : List (Address × Nat)) (hI : Inv s)
    (h : addProduct s sender ts cropName cropPeriod daysToHarvest quantityKg
      pricePerKg location visibility ipfsHash = .ok (s', outs)) :
    QtyPost s s' := by
  simp only [addProduct] at h
  split_ifs at h
  simp only [Except.ok.injEq, Prod.mk.injEq] at h
  obtain ⟨hA, hB⟩ := h
  have hc1 : s'.farmerProductCounter = s.farmerProductCounter + 1 := by rw [← hA]
  have hc2 : s'.distributorBatchCounter = s.distributorBatchCounter := by rw [← hA]
  have hc3 : s'.retailPackCounter = s.retailPackCounter := by rw [← hA]
  have hc4 : s'.retailUnitCounter = s.retailUnitCounter := by rw [← hA]
  have hc5 : s'.purchaseCounter = s.purchaseCounter := by rw [← hA]
  have hm1 : s'.farmerProducts = Function.update s.farmerProducts
      (s.farmerProductCounter + 1)
      { batchId := s.farmerProductCounter + 1, farmer := sender,
        cropName := cropName, cropPeriod := cropPeriod,
        daysToHarvest := daysToHarvest, quantityKg := quantityKg,
        pricePerKg := pricePerKg, location := location,
        visibility := Visibility.ofUint8 visibility, ipfsHash := ipfsHash,
        createdAt := ts, active := true } := by rw [← hA]
  have hm2 : s'.distributorBatches = s.distributorBatches := by rw [← hA]
  have hm3 : s'.retailPacks = s.retailPacks := by rw [← hA]
  have hm4 : s'.retailUnits = s.retailUnits := by rw [← hA]
  have hm5 : s'.purchaseRecords = s.purchaseRecords := by rw [← hA]
  refine ⟨?_, ?_, ?_⟩
  · constructor
    · intro i hne
      rw [hm1] at hne
      rw [hc1]
      by_cases hi : i = s.farmerProductCounter + 1
      · subst hi; exact ⟨by omega, le_rfl⟩
      · rw [Function.update_noteq hi] at hne
        have := hI.fpIdRange i hne
        exact ⟨this.1, by omega⟩
    · intro i hne; rw [hm2] at hne; rw [hc2]; exact hI.dbIdRange i hne
    · intro i hne; rw [hm3] at hne; rw [hc3]; exact hI.packIdRange i hne
    · intro i hne; rw [hm4] at hne; rw [hc4]; exact hI.unitIdRange i hne
    · intro i h1 h2
      rw [hc2] at h2
      rw [hm2, hc1]
      have := hI.dbOrigin i h1 h2
      exact ⟨this.1, by omega⟩
    · intro i h1 h2; rw [hc3] at h2; rw [hm3, hc2]; exact hI.packLink i h1 h2
    · intro i h1 h2; rw [hc4] at h2; rw [hm4, hc3]; exact hI.unitLink i h1 h2
    · intro i h1 h2; rw [hc5] at h2; rw [hm5, hc4]; exact hI.purchaseLink i h1 h2
  · intro P h1 h2
    have e1 : dbContrib s' = dbContrib s := by
      funext Q i; unfold dbContrib; rw [hm2]
    have e2 : packContrib s' = packContrib s := by
      funext Q i; unfold packContrib packOriginOf; rw [hm2, hm3]
    have e3 : unitContrib s' = unitContrib s := by
      funext Q i; unfold unitContrib unitOriginOf packOriginOf; rw [hm2, hm3, hm4]
    have e4 : purchaseContrib s' = purchaseContrib s := by
      funext Q i
      unfold purchaseContrib purchaseOriginOf unitOriginOf packOriginOf
      rw [hm2, hm3, hm4, hm5]
    unfold conserved dbQtySum packQtySum unitQtySum purchaseQtySum
    rw [hm1, hc2, hc3, hc4, hc5, e1, e2, e3, e4,
      Function.update_noteq (show P ≠ s.farmerProductCounter + 1 by omega)]
  · intro P h1 h2
    rw [hc1] at h2
    have hP : P = s.farmerProductCounter + 1 := by omega
    subst hP
    have z1 : dbQtySum s' (s.farmerProductCounter + 1) = 0 := by
      unfold dbQtySum
      rw [hc2]
      refine sumN_zero_of fun i hi1 hi2 => ?_
      unfold dbContrib
      rw [hm2]
      have := hI.dbOrigin i hi1 hi2
      rw [if_neg (by omega)]
    have z2 : packQtySum s' (s.farmerProductCounter + 1) = 0 := by
      unfold packQtySum
      rw [hc3]
      refine sumN_zero_of fun i hi1 hi2 => ?_
      unfold packContrib packOriginOf
      rw [hm2, hm3]
      have := packOriginOf_le s hI i hi1 hi2
      unfold packOriginOf at this
      rw [if_neg (by omega)]
    have z3 : unitQtySum s' (s.farmerProductCounter + 1) = 0 := by
      unfold unitQtySum
      rw [hc4]
      refine sumN_zero_of fun i hi1 hi2 => ?_
      unfold unitContrib unitOriginOf packOriginOf
      rw [hm2, hm3, hm4]
      have := unitOriginOf_le s hI i hi1 hi2
      unfold unitOriginOf packOriginOf at this
      rw [if_neg (by omega)]
    have z4 : purchaseQtySum s' (s.farmerProductCounter + 1) = 0 := by
      unfold purchaseQtySum
      rw [hc5]
      refine sumN_zero_of fun i hi1 hi2 => ?_
      unfold purchaseContrib purchaseOriginOf unitOriginOf packOriginOf
      rw [hm2, hm3, hm4, hm5]
      have := purchaseOriginOf_le s hI i hi1 hi2
      unfold purchaseOriginOf unitOriginOf packOriginOf at this
      rw [if_neg (by omega)]
    unfold conserved
    rw [z1, z2, z3, z4]
    omega

/-!  Origin chains are stable under calls that keep every in-range parent
link and every in-range origin field. -/

theorem packOriginOf_stable_of (s s' : State) (hI : Inv s)
    (hpack : ∀ i, 1 ≤ i → i ≤ s.retailPackCounter →
      (s'.retailPacks i).distributorBatchId = (s.retailPacks i).distributorBatchId)
    (hdb : ∀ j, 1 ≤ j → j ≤ s.distributorBatchCounter →
      (s'.distributorBatches j).originBatchId = (s.distributorBatches j).originBatchId)
    (i : Nat) (h1 : 1 ≤ i) (h2 : i ≤ s.retailPackCounter) :
    packOriginOf s' i = packOriginOf s i := by
  unfold packOriginOf
  rw [hpack i h1 h2]
  have hl := hI.packLink i h1 h2
  exact hdb _ hl.1 hl.2

theorem unitOriginOf_stable_of (s s' : State) (hI : Inv s)
    (hunit : ∀ i, 1 ≤ i → i ≤ s.retailUnitCounter →
      (s'.retailUnits i).parentPackId = (s.retailUnits i).parentPackId)
    (hpack : ∀ i, 1 ≤ i → i ≤ s.retailPackCounter →
      (s'.retailPacks i).distributorBatchId = (s.retailPacks i).distributorBatchId)
    (hdb : ∀ j, 1 ≤ j → j ≤ s.distributorBatchCounter →
      (s'.distributorBatches j).originBatchId = (s.distributorBatches j).originBatchId)
    (i : Nat) (h1 : 1 ≤ i) (h2 : i ≤ s.retailUnitCounter) :
    unitOriginOf s' i = unitOriginOf s i := by
  unfold unitOriginOf
  rw [hunit i h1 h2]
  have hl := hI.unitLink i h1 h2
  exact packOriginOf_stable_of s s' hI hpack hdb _ hl.1 hl.2

theorem purchaseOriginOf_stable_of (s s' : State) (hI : Inv s)
    (hpurch : ∀ i, 1 ≤ i → i ≤ s.purchaseCounter →
      (s'.purchaseRecords i).unitId = (s.purchaseRecords i).unitId)
    (hunit : ∀ i, 1 ≤ i → i ≤ s.retailUnitCounter →
      (s'.retailUnits i).parentPackId = (s.retailUnits i).parentPackId)
    (hpack : ∀ i, 1 ≤ i → i ≤ s.retailPackCounter →
      (s'.retailPacks i).distributorBatchId = (s.retailPacks i).distributorBatchId)
    (hdb : ∀ j, 1 ≤ j → j ≤ s.distributorBatchCounter →
      (s'.distributorBatches j).originBatchId = (s.distributorBatches j).originBatchId)
    (i : Nat) (h1 : 1 ≤ i) (h2 : i ≤ s.purchaseCounter) :
    purchaseOriginOf s' i = purchaseOriginOf s i := by
  unfold purchaseOriginOf
  rw [hpurch i h1 h2]
  have hl := hI.purchaseLink i h1 h2
  exact unitOriginOf_stable_of s s' hI hunit hpack hdb _ hl.1 hl.2

/-- Core of the buyFarmerBatch conservation argument: the farmer product b
is debited by exactly the quantity credited to the one new distributor
batch; everything else is untouched. -/
theorem qtyPost_buyFarmer_core (s s' : State) (b q : Nat)
    (FP' : FarmerProduct) (DB' : DistributorBatch) (hI : Inv s)
    (hbne : (s.farmerProducts b).batchId ≠ 0)
    (hqle : q ≤ (s.farmerProducts b).quantityKg)
    (hc1 : s'.farmerProductCounter = s.farmerProductCounter)
    (hc2 : s'.distributorBatchCounter = s.distributorBatchCounter + 1)
    (hc3 : s'.retailPackCounter = s.retailPackCounter)
    (hc4 : s'.retailUnitCounter = s.retailUnitCounter)
    (hc5 : s'.purchaseCounter = s.purchaseCounter)
    (hm1 : s'.farmerProducts = Function.update s.farmerProducts b FP')
    (hm2 : s'.distributorBatches
      = Function.update s.distributorBatches (s.distributorBatchCounter + 1) DB')
    (hm3 : s'.retailPacks = s.retailPacks)
    (hm4 : s'.retailUnits = s.retailUnits)
    (hm5 : s'.purchaseRecords = s.purchaseRecords)
    (hFPid : FP'.batchId = (s.farmerProducts b).batchId)
    (hFPq : FP'.quantityKg = (s.farmerProducts b).quantityKg - q)
    (hDBid : DB'.batchId ≠ 0)
    (hDBorigin : DB'.originBatchId = b)
    (hDBq : DB'.quantityKg = q) : QtyPost s s' := by
  have hbrange := hI.fpIdRange b hbne
  have hdbstable : ∀ j, 1 ≤ j → j ≤ s.distributorBatchCounter →
      (s'.distributorBatches j).originBatchId
      = (s.distributorBatches j).originBatchId := by
    intro j hj1 hj2
    rw [hm2, Function.update_noteq (by omega)]
  have hpackstable : ∀ i, 1 ≤ i → i ≤ s.retailPackCounter →
      (s'.retailPacks i).distributorBatchId
      = (s.retailPacks i).distributorBatchId := by
    intro i _ _; rw [hm3]
  have hunitstable : ∀ i, 1 ≤ i → i ≤ s.retailUnitCounter →
      (s'.retailUnits i).parentPackId = (s.retailUnits i).parentPackId := by
    intro i _ _; rw [hm4]
  have hpurchstable : ∀ i, 1 ≤ i → i ≤ s.purchaseCounter →
      (s'.purchaseRecords i).unitId = (s.purchaseRecords i).unitId := by
    intro i _ _; rw [hm5]
  refine ⟨?_, ?_, ?_⟩
  · constructor
    · intro i hne
      rw [hm1] at hne
      rw [hc1]
      by_cases hi : i = b
      · subst hi; exact hI.fpIdRange i hbne
      · rw [Function.update_noteq hi] at hne
        exact hI.fpIdRange i hne
    · intro i hne
      rw [hm2] at hne
      rw [hc2]
      by_cases hi : i = s.distributorBatchCounter + 1
      · subst hi; exact ⟨by omega, le_rfl⟩
      · rw [Function.update_noteq hi] at hne
        have := hI.dbIdRange i hne
        exact ⟨this.1, by omega⟩
    · intro i hne; rw [hm3] at hne; rw [hc3]; exact hI.packIdRange i hne
    · intro i hne; rw [hm4] at hne; rw [hc4]; exact hI.unitIdRange i hne
    · intro i h1 h2
      rw [hc2] at h2
      rw [hm2, hc1]
      by_cases hi : i = s.distributorBatchCounter + 1
      · subst hi
        rw [Function.update_same, hDBorigin]
        exact hbrange
      · rw [Function.update_noteq hi]
        exact hI.dbOrigin i h1 (by omega)
    · intro i h1 h2
      rw [hc3] at h2
      rw [hm3, hc2]
      have := hI.packLink i h1 h2
      exact ⟨this.1, by omega⟩
    · intro i h1 h2; rw [hc4] at h2; rw [hm4, hc3]; exact hI.unitLink i h1 h2
    · intro i h1 h2; rw [hc5] at h2; rw [hm5, hc4]; exact hI.purchaseLink i h1 h2
  · intro P h1 h2
    have edb : dbQtySum s' P = dbQtySum s P + (if b = P then q else 0) := by
      unfold dbQtySum
      rw [hc2, sumN_succ]
      have hcong : sumN s.distributorBatchCounter (dbContrib s' P)
          = sumN s.distributorBatchCounter (dbContrib s P) := by
        refine sumN_congr fun i hi1 hi2 => ?_
        unfold dbContrib
        rw [hm2, Function.update_noteq (by omega)]
      rw [hcong]
      have hnew : dbContrib s' P (s.distributorBatchCounter + 1)
          = (if b = P then q else 0) := by
        unfold dbContrib
        rw [hm2, Function.update_same, hDBorigin, hDBq]
      rw [hnew]
    have epack : packQtySum s' P = packQtySum s P := by
      unfold packQtySum
      rw [hc3]
      refine sumN_congr fun i hi1 hi2 => ?_
      unfold packContrib
      rw [hm3, packOriginOf_stable_of s s' hI hpackstable hdbstable i hi1 hi2]
    have eunit : unitQtySum s' P = unitQtySum s P := by
      unfold unitQtySum
      rw [hc4]
      refine sumN_congr fun i hi1 hi2 => ?_
      unfold unitContrib
      rw [hm4,
        unitOriginOf_stable_of s s' hI hunitstable hpackstable hdbstable i hi1 hi2]
    have epurch : purchaseQtySum s' P = purchaseQtySum s P := by
      unfold purchaseQtySum
      rw [hc5]
      refine sumN_congr fun i hi1 hi2 => ?_
      unfold purchaseContrib
      rw [hm5, purchaseOriginOf_stable_of s s' hI hpurchstable hunitstable
        hpackstable hdbstable i hi1 hi2]
    have efp : (s'.farmerProducts P).quantityKg
        = (s.farmerProducts P).quantityKg - (if b = P then q else 0) := by
      rw [hm1]
      by_cases hi : P = b
      · subst hi
        rw [Function.update_same, hFPq, if_pos rfl]
      · rw [Function.update_noteq hi, if_neg (fun hc => hi hc.symm)]
        omega
    unfold conserved
    rw [edb, epack, eunit, epurch, efp]
    by_cases hb : b = P
    · subst hb
      rw [if_pos rfl] at *
      have : q ≤ (s.farmerProducts b).quantityKg := hqle
      omega
    · rw [if_neg hb]
      omega
  · intro P h1 h2
    rw [hc1] at h2
    omega

theorem conservePost_buyFarmerBatch (s s' : State) (sender value ts : Nat)
    (canReceive : Address → Bool) (farmerBatchId qtyKg : Nat)
    (outs : List (Address × Nat)) (hI : Inv s)
    (h : buyFarmerBatch s sender value ts canReceive farmerBatchId qtyKg
      = .ok (s', outs)) : QtyPost s s' := by
  simp only [buyFarmerBatch] at h
  split_ifs at h with w1 w2 w3 w4 w5 w6
  all_goals simp only [Except.ok.injEq, Prod.mk.injEq] at h
  all_goals obtain ⟨hA, hB⟩ := h
  all_goals
    exact qtyPost_buyFarmer_core s s' farmerBatchId qtyKg _ _
      hI w2.1 w4.2
      (by rw [← hA]) (by rw [← hA]) (by rw [← hA]) (by rw [← hA]) (by rw [← hA])
      (by rw [← hA]) (by rw [← hA]) (by rw [← hA]) (by rw [← hA]) (by rw [← hA])
      (by rfl) (by rfl) (by dsimp only; omega) (by rfl) (by rfl)

/-!  The zipped split-argument lists. -/

theorem zip3_map_fst (qs ps : List Nat) (hs : List String)
    (h1 : qs.length = ps.length) (h2 : qs.length = hs.length) :
    ((qs.zip ps).zip hs).map (fun x => x.1.1) = qs := by
  induction qs generalizing ps hs with
  | nil => simp
  | cons q qs' ih =>
    cases ps with
    | nil => simp at h1
    | cons p ps' =>
      cases hs with
      | nil => simp at h2
      | cons hh hs' =>
        simp only [List.zip_cons_cons, List.map_cons, List.cons.injEq]
        exact ⟨by simp, ih ps' hs' (by simpa using h1) (by simpa using h2)⟩

theorem zip3_length (qs ps : List Nat) (hs : List String)
    (h1 : qs.length = ps.length) (h2 : qs.length = hs.length) :
    ((qs.zip ps).zip hs).length = qs.length := by
  simp [List.length_zip]
  omega

theorem sumQ_eq (qs ps : List Nat) (hs : List String)
    (h1 : qs.length = ps.length) (h2 : qs.length = hs.length) :
    sumQ ((qs.zip ps).zip hs) = sumList qs := by
  unfold sumQ
  rw [zip3_map_fst qs ps hs h1 h2]

theorem sumList_map_ite {α : Type} (c : Prop) [Decidable c] (f : α → Nat)
    (L : List α) :
    sumList (L.map fun x => if c then f x else 0)
      = if c then sumList (L.map f) else 0 := by
  by_cases hc : c
  · simp [hc]
  · simp [hc]
    induction L with
    | nil => rfl
    | cons x rest ih => simpa [sumList] using ih

/-- Core of the splitDistributorBatch conservation argument: the batch d is
debited by exactly the total quantity of the packs created under it. -/
theorem qtyPost_splitDb_core (s s' : State) (d : Nat)
    (L : List ((Nat × Nat) × String)) (sender ts : Nat)
    (DB' : DistributorBatch) (hI : Inv s)
    (hdne : (s.distributorBatches d).batchId ≠ 0)
    (hS : sumQ L ≤ (s.distributorBatches d).quantityKg)
    (hc1 : s'.farmerProductCounter = s.farmerProductCounter)
    (hc2 : s'.distributorBatchCounter = s.distributorBatchCounter)
    (hc3 : s'.retailPackCounter = s.retailPackCounter + L.length)
    (hc4 : s'.retailUnitCounter = s.retailUnitCounter)
    (hc5 : s'.purchaseCounter = s.purchaseCounter)
    (hm1 : s'.farmerProducts = s.farmerProducts)
    (hm2 : s'.distributorBatches = Function.update s.distributorBatches d DB')
    (hm3 : s'.retailPacks
      = (recLoop (mkPack d sender ts) (s.retailPackCounter, s.retailPacks) L).2)
    (hm4 : s'.retailUnits = s.retailUnits)
    (hm5 : s'.purchaseRecords = s.purchaseRecords)
    (hDBid : DB'.batchId = (s.distributorBatches d).batchId)
    (hDBorigin : DB'.originBatchId = (s.distributorBatches d).originBatchId)
    (hDBq : DB'.quantityKg = (s.distributorBatches d).quantityKg - sumQ L) :
    QtyPost s s' := by
  have hdrange := hI.dbIdRange d hdne
  have hdbAllOrigin : ∀ j, (s'.distributorBatches j).originBatchId
      = (s.distributorBatches j).originBatchId := by
    intro j
    rw [hm2]
    by_cases hj : j = d
    · subst hj; rw [Function.update_same, hDBorigin]
    · rw [Function.update_noteq hj]
  have hpack_old : ∀ i, i ≤ s.retailPackCounter →
      s'.retailPacks i = s.retailPacks i := by
    intro i hi
    rw [hm3]
    exact recLoop_preserve _ L s.retailPackCounter s.retailPacks i hi
  have hpack_new : ∀ j (hj : j < L.length),
      s'.retailPacks (s.retailPackCounter + 1 + j)
      = mkPack d sender ts (s.retailPackCounter + 1 + j) (L.get ⟨j, hj⟩) := by
    intro j hj
    rw [hm3]
    exact recLoop_get _ L s.retailPackCounter s.retailPacks j hj
  refine ⟨?_, ?_, ?_⟩
  · constructor
    · intro i hne; rw [hm1] at hne; rw [hc1]; exact hI.fpIdRange i hne
    · intro i hne
      rw [hm2] at hne
      rw [hc2]
      by_cases hi : i = d
      · subst hi; exact hdrange
      · rw [Function.update_noteq hi] at hne
        exact hI.dbIdRange i hne
    · intro i hne
      rw [hm3] at hne
      rw [hc3]
      have := recLoop_id (mkPack d sender ts) RetailPack.packId L
        s.retailPackCounter s.retailPacks i hne
      rcases this with hold | hnew
      · have := hI.packIdRange i hold
        exact ⟨this.1, by omega⟩
      · exact ⟨by omega, hnew.2⟩
    · intro i hne; rw [hm4] at hne; rw [hc4]; exact hI.unitIdRange i hne
    · intro i h1 h2
      rw [hc2] at h2
      rw [hdbAllOrigin i, hc1]
      exact hI.dbOrigin i h1 h2
    · intro i h1 h2
      rw [hc3] at h2
      rw [hc2]
      by_cases hi : i ≤ s.retailPackCounter
      · rw [hpack_old i hi]
        exact hI.packLink i h1 hi
      · have hj : i - s.retailPackCounter - 1 < L.length := by omega
        have hieq : i = s.retailPackCounter + 1 + (i - s.retailPackCounter - 1) := by
          omega
        rw [hieq, hpack_new _ hj]
        exact hI.dbIdRange d hdne
    · intro i h1 h2
      rw [hc4] at h2
      rw [hm4, hc3]
      have := hI.unitLink i h1 h2
      exact ⟨this.1, by omega⟩
    · intro i h1 h2; rw [hc5] at h2; rw [hm5, hc4]; exact hI.purchaseLink i h1 h2
  · intro P h1 h2
    have hex : sumN s.distributorBatchCounter (dbContrib s' P) + dbContrib s P d
        = sumN s.distributorBatchCounter (dbContrib s P) + dbContrib s' P d := by
      refine sumN_exchange hdrange.1 hdrange.2 fun i hi1 hi2 hid => ?_
      unfold dbContrib
      rw [hm2, Function.update_noteq hid]
    have hat_old : dbContrib s P d
        = if (s.distributorBatches d).originBatchId = P
          then (s.distributorBatches d).quantityKg else 0 := rfl
    have hat_new : dbContrib s' P d
        = if (s.distributorBatches d).originBatchId = P
          then (s.distributorBatches d).quantityKg - sumQ L else 0 := by
      unfold dbContrib
      rw [hm2, Function.update_same, hDBorigin, hDBq]
    have edb : dbQtySum s' P = sumN s.distributorBatchCounter (dbContrib s' P) := by
      unfold dbQtySum; rw [hc2]
    have edbs : dbQtySum s P = sumN s.distributorBatchCounter (dbContrib s P) := rfl
    have epack : packQtySum s' P = packQtySum s P
        + (if (s.distributorBatches d).originBatchId = P then sumQ L else 0) := by
      unfold packQtySum
      rw [hc3]
      have hstep1 : sumN (s.retailPackCounter + L.length) (packContrib s' P)
          = sumN (s.retailPackCounter + L.length) (fun i =>
            if (s.distributorBatches (s'.retailPacks i).distributorBatchId).originBatchId
              = P then (s'.retailPacks i).quantityKg else 0) := by
        refine sumN_congr fun i _ _ => ?_
        unfold packContrib packOriginOf
        rw [hdbAllOrigin]
      rw [hstep1, hm3]
      rw [recLoop_sum (mkPack d sender ts)
        (fun rp => if (s.distributorBatches rp.distributorBatchId).originBatchId = P
          then rp.quantityKg else 0)
        (fun x => if (s.distributorBatches d).originBatchId = P then x.1.1 else 0)
        (fun i x => rfl) L s.retailPackCounter s.retailPacks]
      rw [sumList_map_ite]
      rfl
    have eunit : unitQtySum s' P = unitQtySum s P := by
      unfold unitQtySum
      rw [hc4]
      refine sumN_congr fun i hi1 hi2 => ?_
      unfold unitContrib
      rw [hm4, unitOriginOf_stable_of s s' hI
        (fun i _ _ => by rw [hm4])
        (fun i hx1 hx2 => by rw [hpack_old i hx2])
        (fun j hj1 hj2 => hdbAllOrigin j) i hi1 hi2]
    have epurch : purchaseQtySum s' P = purchaseQtySum s P := by
      unfold purchaseQtySum
      rw [hc5]
      refine sumN_congr fun i hi1 hi2 => ?_
      unfold purchaseContrib
      rw [hm5, purchaseOriginOf_stable_of s s' hI
        (fun i _ _ => by rw [hm5])
        (fun i _ _ => by rw [hm4])
        (fun i hx1 hx2 => by rw [hpack_old i hx2])
        (fun j hj1 hj2 => hdbAllOrigin j) i hi1 hi2]
    unfold conserved
    rw [hm1, edb, eunit, epurch, epack, edbs] at *
    by_cases horig : (s.distributorBatches d).originBatchId = P
    · rw [if_pos horig] at hat_old hat_new ⊢
      omega
    · rw [if_neg horig] at hat_old hat_new ⊢
      omega
  · intro P h1 h2
    rw [hc1] at h2
    omega

theorem conservePost_splitDistributorBatch (s s' : State)
    (sender ts distributorBatchId : Nat) (splitQuantities pricesPerKg : List Nat)
    (ipfsHashes : List String) (outs : List (Address × Nat)) (hI : Inv s)
    (h : splitDistributorBatch s sender ts distributorBatchId splitQuantities
      pricesPerKg ipfsHashes = .ok (s', outs)) : QtyPost s s' := by
  simp only [splitDistributorBatch] at h
  split_ifs at h with w1 w2 w3 w4 w5 w6
  all_goals simp only [Except.ok.injEq, Prod.mk.injEq] at h
  all_goals obtain ⟨hA, hB⟩ := h
  all_goals
    have hlen1 : splitQuantities.length = pricesPerKg.length := not_not.mp w4
  all_goals
    have hlen2 : splitQuantities.length = ipfsHashes.length := not_not.mp w5
  all_goals
    exact qtyPost_splitDb_core s s' distributorBatchId
      ((splitQuantities.zip pricesPerKg).zip ipfsHashes) sender ts _ hI w2.1
      (by rw [sumQ_eq _ _ _ hlen1 hlen2]; exact w6)
      (by rw [← hA]) (by rw [← hA])
      (by rw [← hA]
          dsimp only
          exact recLoop_fst (mkPack distributorBatchId sender ts)
            ((splitQuantities.zip pricesPerKg).zip ipfsHashes)
            s.retailPackCounter s.retailPacks)
      (by rw [← hA]) (by rw [← hA]) (by rw [← hA]) (by rw [← hA]) (by rw [← hA])
      (by rw [← hA]) (by rw [← hA]) (by rfl) (by rfl)
      (by rw [sumQ_eq _ _ _ hlen1 hlen2])

/-- Core of the splitRetailUnit conservation argument: the root unit u is
debited by exactly the total quantity of the units created beside it, all
parented to the same pack. -/
theorem qtyPost_splitUnit_core (s s' : State) (u pp : Nat)
    (L : List ((Nat × Nat) × String)) (sender ts : Nat)
    (U' : RetailUnit) (hI : Inv s)
    (hune : (s.retailUnits u).unitId ≠ 0)
    (hpp : pp = (s.retailUnits u).parentPackId)
    (hS : sumQ L ≤ (s.retailUnits u).quantityKg)
    (hc1 : s'.farmerProductCounter = s.farmerProductCounter)
    (hc2 : s'.distributorBatchCounter = s.distributorBatchCounter)
    (hc3 : s'.retailPackCounter = s.retailPackCounter)
    (hc4 : s'.retailUnitCounter = s.retailUnitCounter + L.length)
    (hc5 : s'.purchaseCounter = s.purchaseCounter)
    (hm1 : s'.farmerProducts = s.farmerProducts)
    (hm2 : s'.distributorBatches = s.distributorBatches)
    (hm3 : s'.retailPacks = s.retailPacks)
    (hm4 : s'.retailUnits = Function.update
      (recLoop (mkUnit pp sender ts) (s.retailUnitCounter, s.retailUnits) L).2 u U')
    (hm5 : s'.purchaseRecords = s.purchaseRecords)
    (hUid : U'.unitId = (s.retailUnits u).unitId)
    (hUpp : U'.parentPackId = (s.retailUnits u).parentPackId)
    (hUq : U'.quantityKg = (s.retailUnits u).quantityKg - sumQ L) :
    QtyPost s s' := by
  subst hpp
  have hurange := hI.unitIdRange u hune
  have hmap_u : s'.retailUnits u = U' := by rw [hm4, Function.update_same]
  have hmap_old : ∀ i, i ≤ s.retailUnitCounter → i ≠ u →
      s'.retailUnits i = s.retailUnits i := by
    intro i hi hne
    rw [hm4, Function.update_noteq hne]
    exact recLoop_preserve _ L s.retailUnitCounter s.retailUnits i hi
  have hmap_new : ∀ j (hj : j < L.length),
      s'.retailUnits (s.retailUnitCounter + 1 + j)
      = mkUnit (s.retailUnits u).parentPackId sender ts
          (s.retailUnitCounter + 1 + j) (L.get ⟨j, hj⟩) := by
    intro j hj
    rw [hm4, Function.update_noteq
      (show s.retailUnitCounter + 1 + j ≠ u by omega)]
    exact recLoop_get _ L s.retailUnitCounter s.retailUnits j hj
  have hppb := hI.unitLink u hurange.1 hurange.2
  refine ⟨?_, ?_, ?_⟩
  · constructor
    · intro i hne; rw [hm1] at hne; rw [hc1]; exact hI.fpIdRange i hne
    · intro i hne; rw [hm2] at hne; rw [hc2]; exact hI.dbIdRange i hne
    · intro i hne; rw [hm3] at hne; rw [hc3]; exact hI.packIdRange i hne
    · intro i hne
      rw [hc4]
      by_cases hiu : i = u
      · subst hiu; exact ⟨hurange.1, by omega⟩
      · rw [hm4, Function.update_noteq hiu] at hne
        have := recLoop_id (mkUnit (s.retailUnits u).parentPackId sender ts)
          RetailUnit.unitId L s.retailUnitCounter s.retailUnits i hne
        rcases this with hold | hnew
        · have := hI.unitIdRange i hold
          exact ⟨this.1, by omega⟩
        · exact ⟨by omega, hnew.2⟩
    · intro i h1 h2; rw [hc2] at h2; rw [hm2, hc1]; exact hI.dbOrigin i h1 h2
    · intro i h1 h2; rw [hc3] at h2; rw [hm3, hc2]; exact hI.packLink i h1 h2
    · intro i h1 h2
      rw [hc4] at h2
      rw [hc3]
      by_cases hiu : i = u
      · subst hiu
        rw [hmap_u, hUpp]
        exact hppb
      · by_cases hi : i ≤ s.retailUnitCounter
        · rw [hmap_old i hi hiu]
          exact hI.unitLink i h1 hi
        · have hj : i - s.retailUnitCounter - 1 < L.length := by omega
          have hieq : i = s.retailUnitCounter + 1 + (i - s.retailUnitCounter - 1) := by
            omega
          rw [hieq, hmap_new _ hj]
          exact hppb
    · intro i h1 h2
      rw [hc5] at h2
      rw [hm5, hc4]
      have := hI.purchaseLink i h1 h2
      exact ⟨this.1, by omega⟩
  · intro P h1 h2
    have e1 : dbContrib s' = dbContrib s := by
      funext Q i; unfold dbContrib; rw [hm2]
    have e2 : packContrib s' = packContrib s := by
      funext Q i; unfold packContrib packOriginOf; rw [hm2, hm3]
    have eunit : unitQtySum s' P = unitQtySum s P := by
      have hloopmap : ∀ i, i ≠ u → s'.retailUnits i
          = (recLoop (mkUnit (s.retailUnits u).parentPackId sender ts)
              (s.retailUnitCounter, s.retailUnits) L).2 i := by
        intro i hid
        rw [hm4, Function.update_noteq hid]
      have hex := @sumN_exchange (s.retailUnitCounter + L.length) u hurange.1
        (show u ≤ s.retailUnitCounter + L.length by omega)
        (unitContrib s' P)
        (fun i => if (s.distributorBatches (s.retailPacks
            ((recLoop (mkUnit (s.retailUnits u).parentPackId sender ts)
              (s.retailUnitCounter, s.retailUnits) L).2 i).parentPackId).distributorBatchId).originBatchId
          = P then ((recLoop (mkUnit (s.retailUnits u).parentPackId sender ts)
              (s.retailUnitCounter, s.retailUnits) L).2 i).quantityKg else 0)
        (fun i hi1 hi2 hid => by
          unfold unitContrib unitOriginOf packOriginOf
          rw [hm2, hm3, hloopmap i hid])
      have hsum := recLoop_sum (mkUnit (s.retailUnits u).parentPackId sender ts)
        (fun ru : RetailUnit => if (s.distributorBatches
            (s.retailPacks ru.parentPackId).distributorBatchId).originBatchId = P
          then ru.quantityKg else 0)
        (fun x => if (s.distributorBatches
            (s.retailPacks (s.retailUnits u).parentPackId).distributorBatchId).originBatchId = P
          then x.1.1 else 0)
        (fun i x => rfl) L s.retailUnitCounter s.retailUnits
      have hloopu : (recLoop (mkUnit (s.retailUnits u).parentPackId sender ts)
          (s.retailUnitCounter, s.retailUnits) L).2 u = s.retailUnits u :=
        recLoop_preserve _ L s.retailUnitCounter s.retailUnits u hurange.2
      dsimp only at hex hsum
      rw [hloopu] at hex
      have hval : unitContrib s' P u
          = if (s.distributorBatches
              (s.retailPacks (s.retailUnits u).parentPackId).distributorBatchId).originBatchId = P
            then (s.retailUnits u).quantityKg - sumQ L else 0 := by
        unfold unitContrib unitOriginOf packOriginOf
        rw [hm2, hm3, hmap_u, hUpp, hUq]
      rw [hval] at hex
      have hite := sumList_map_ite
        ((s.distributorBatches
          (s.retailPacks (s.retailUnits u).parentPackId).distributorBatchId).originBatchId
          = P)
        (fun x : (Nat × Nat) × String => x.1.1) L
      rw [hite] at hsum
      have hbridge : sumList (L.map fun x : (Nat × Nat) × String => x.1.1)
          = sumQ L := rfl
      rw [hbridge] at hsum
      have hbase : sumN s.retailUnitCounter (fun i =>
          if (s.distributorBatches
              (s.retailPacks (s.retailUnits i).parentPackId).distributorBatchId).originBatchId = P
            then (s.retailUnits i).quantityKg else 0) = unitQtySum s P :=
        sumN_congr fun i _ _ => rfl
      rw [hbase] at hsum
      have hstart : unitQtySum s' P
          = sumN (s.retailUnitCounter + L.length) (unitContrib s' P) := by
        unfold unitQtySum
        rw [hc4]
      rw [hstart]
      by_cases hcond : (s.distributorBatches
          (s.retailPacks (s.retailUnits u).parentPackId).distributorBatchId).originBatchId = P
      · rw [if_pos hcond, if_pos hcond] at hex
        rw [if_pos hcond] at hsum
        omega
      · rw [if_neg hcond, if_neg hcond] at hex
        rw [if_neg hcond] at hsum
        omega
    have epurch : purchaseQtySum s' P = purchaseQtySum s P := by
      unfold purchaseQtySum
      rw [hc5]
      refine sumN_congr fun i hi1 hi2 => ?_
      unfold purchaseContrib
      rw [hm5, purchaseOriginOf_stable_of s s' hI
        (fun i _ _ => by rw [hm5])
        (fun i hx1 hx2 => by
          by_cases hiu : i = u
          · subst hiu; rw [hmap_u, hUpp]
          · rw [hmap_old i hx2 hiu])
        (fun i _ _ => by rw [hm3])
        (fun j _ _ => by rw [hm2]) i hi1 hi2]
    unfold conserved
    unfold dbQtySum packQtySum
    rw [hm1, hc2, hc3, e1, e2, eunit, epurch]
  · intro P h1 h2
    rw [hc1] at h2
    omega

theorem conservePost_splitRetailUnit (s s' : State) (sender ts unitId : Nat)
    (unitQuantities unitPricesPerKg : List Nat) (ipfsHashes : List String)
    (outs : List (Address × Nat)) (hI : Inv s)
    (h : splitRetailUnit s sender ts unitId unitQuantities unitPricesPerKg
      ipfsHashes = .ok (s', outs)) : QtyPost s s' := by
  simp only [splitRetailUnit] at h
  split_ifs at h with w1 w2 w3 w4 w5 w6
  all_goals simp only [Except.ok.injEq, Prod.mk.injEq] at h
  all_goals obtain ⟨hA, hB⟩ := h
  all_goals
    have hlen1 : unitQuantities.length = unitPricesPerKg.length := not_not.mp w4
  all_goals
    have hlen2 : unitQuantities.length = ipfsHashes.length := not_not.mp w5
  all_goals
    have hu : unitId ≤ s.retailUnitCounter := (hI.unitIdRange unitId w2).2
  all_goals
    exact qtyPost_splitUnit_core s s' unitId (s.retailUnits unitId).parentPackId
      ((unitQuantities.zip unitPricesPerKg).zip ipfsHashes) sender ts _ hI w2 rfl
      (by rw [sumQ_eq _ _ _ hlen1 hlen2]; exact w6)
      (by rw [← hA]) (by rw [← hA]) (by rw [← hA])
      (by rw [← hA]
          dsimp only
          exact recLoop_fst _ ((unitQuantities.zip unitPricesPerKg).zip ipfsHashes)
            s.retailUnitCounter s.retailUnits)
      (by rw [← hA]) (by rw [← hA]) (by rw [← hA]) (by rw [← hA]) (by rw [← hA])
      (by rw [← hA])
      (by dsimp only; rw [recLoop_preserve _ _ _ _ _ hu])
      (by dsimp only; rw [recLoop_preserve _ _ _ _ _ hu])
      (by dsimp only
          rw [recLoop_preserve _ _ _ _ _ hu, sumQ_eq _ _ _ hlen1 hlen2])

/-- Core of the accepted approveBuyRequest conservation argument: the pack k
is debited by exactly the quantity of the one retail unit created under it. -/
theorem qtyPost_acceptReq_core (s s' : State) (k q : Nat)
    (P' : RetailPack) (RU' : RetailUnit) (hI : Inv s)
    (hkne : (s.retailPacks k).packId ≠ 0)
    (hq : q ≤ (s.retailPacks k).quantityKg)
    (hc1 : s'.farmerProductCounter = s.farmerProductCounter)
    (hc2 : s'.distributorBatchCounter = s.distributorBatchCounter)
    (hc3 : s'.retailPackCounter = s.retailPackCounter)
    (hc4 : s'.retailUnitCounter = s.retailUnitCounter + 1)
    (hc5 : s'.purchaseCounter = s.purchaseCounter)
    (hm1 : s'.farmerProducts = s.farmerProducts)
    (hm2 : s'.distributorBatches = s.distributorBatches)
    (hm3 : s'.retailPacks = Function.update s.retailPacks k P')
    (hm4 : s'.retailUnits
      = Function.update s.retailUnits (s.retailUnitCounter + 1) RU')
    (hm5 : s'.purchaseRecords = s.purchaseRecords)
    (hP'id : P'.packId = (s.retailPacks k).packId)
    (hP'db : P'.distributorBatchId = (s.retailPacks k).distributorBatchId)
    (hP'q : P'.quantityKg = (s.retailPacks k).quantityKg - q)
    (hRUid : RU'.unitId ≠ 0)
    (hRUpp : RU'.parentPackId = k)
    (hRUq : RU'.quantityKg = q) : QtyPost s s' := by
  have hkrange := hI.packIdRange k hkne
  have hpackdb : ∀ j, (s'.retailPacks j).distributorBatchId
      = (s.retailPacks j).distributorBatchId := by
    intro j
    rw [hm3]
    by_cases hj : j = k
    · subst hj; rw [Function.update_same, hP'db]
    · rw [Function.update_noteq hj]
  have horigin : ∀ j, packOriginOf s' j = packOriginOf s j := by
    intro j
    unfold packOriginOf
    rw [hm2, hpackdb j]
  refine ⟨?_, ?_, ?_⟩
  · constructor
    · intro i hne; rw [hm1] at hne; rw [hc1]; exact hI.fpIdRange i hne
    · intro i hne; rw [hm2] at hne; rw [hc2]; exact hI.dbIdRange i hne
    · intro i hne
      rw [hm3] at hne
      rw [hc3]
      by_cases hi : i = k
      · subst hi; exact hkrange
      · rw [Function.update_noteq hi] at hne
        exact hI.packIdRange i hne
    · intro i hne
      rw [hm4] at hne
      rw [hc4]
      by_cases hi : i = s.retailUnitCounter + 1
      · subst hi; exact ⟨by omega, le_rfl⟩
      · rw [Function.update_noteq hi] at hne
        have := hI.unitIdRange i hne
        exact ⟨this.1, by omega⟩
    · intro i h1 h2; rw [hc2] at h2; rw [hm2, hc1]; exact hI.dbOrigin i h1 h2
    · intro i h1 h2
      rw [hc3] at h2
      rw [hpackdb i, hc2]
      exact hI.packLink i h1 h2
    · intro i h1 h2
      rw [hc4] at h2
      rw [hm4, hc3]
      by_cases hi : i = s.retailUnitCounter + 1
      · subst hi
        rw [Function.update_same, hRUpp]
        exact hkrange
      · rw [Function.update_noteq hi]
        exact hI.unitLink i h1 (by omega)
    · intro i h1 h2
      rw [hc5] at h2
      rw [hm5, hc4]
      have := hI.purchaseLink i h1 h2
      exact ⟨this.1, by omega⟩
  · intro P h1 h2
    have e1 : dbContrib s' = dbContrib s := by
      funext Q i; unfold dbContrib; rw [hm2]
    have hex : sumN s.retailPackCounter (packContrib s' P) + packContrib s P k
        = sumN s.retailPackCounter (packContrib s P) + packContrib s' P k := by
      refine sumN_exchange hkrange.1 hkrange.2 fun i hi1 hi2 hid => ?_
      unfold packContrib
      rw [horigin i, hm3, Function.update_noteq hid]
    have hat_old : packContrib s P k
        = if packOriginOf s k = P then (s.retailPacks k).quantityKg else 0 := rfl
    have hat_new : packContrib s' P k
        = if packOriginOf s k = P
          then (s.retailPacks k).quantityKg - q else 0 := by
      unfold packContrib
      rw [horigin k, hm3, Function.update_same, hP'q]
    have epackdef : packQtySum s' P = sumN s.retailPackCounter (packContrib s' P) := by
      unfold packQtySum; rw [hc3]
    have eunit : unitQtySum s' P = unitQtySum s P
        + (if packOriginOf s k = P then q else 0) := by
      unfold unitQtySum
      rw [hc4, sumN_succ]
      have hcong : sumN s.retailUnitCounter (unitContrib s' P)
          = sumN s.retailUnitCounter (unitContrib s P) := by
        refine sumN_congr fun i hi1 hi2 => ?_
        unfold unitContrib unitOriginOf
        rw [horigin, hm4, Function.update_noteq (by omega)]
      have hnew : unitContrib s' P (s.retailUnitCounter + 1)
          = (if packOriginOf s k = P then q else 0) := by
        unfold unitContrib unitOriginOf
        rw [hm4, Function.update_same, hRUpp, hRUq, horigin k]
      rw [hcong, hnew]
    have epurch : purchaseQtySum s' P = purchaseQtySum s P := by
      unfold purchaseQtySum
      rw [hc5]
      refine sumN_congr fun i hi1 hi2 => ?_
      unfold purchaseContrib
      rw [hm5, purchaseOriginOf_stable_of s s' hI
        (fun i _ _ => by rw [hm5])
        (fun i _ h2 => by rw [hm4, Function.update_noteq (by omega)])
        (fun i _ _ => hpackdb i)
        (fun j _ _ => by rw [hm2]) i hi1 hi2]
    unfold conserved
    unfold dbQtySum
    rw [hm1, hc2, e1, epackdef, eunit, epurch]
    by_cases hcond : packOriginOf s k = P
    · rw [if_pos hcond] at hat_old hat_new ⊢
      unfold packQtySum at *
      omega
    · rw [if_neg hcond] at hat_old hat_new ⊢
      unfold packQtySum at *
      omega
  · intro P h1 h2
    rw [hc1] at h2
    omega

/-- Composing two conservation steps when the product counter is unchanged
throughout. -/
theorem qtyPost_trans (s t s' : State) (h1 : QtyPost s t)
    (ht : t.farmerProductCounter = s.farmerProductCounter)
    (h2 : QtyPost t s')
    (ht2 : s'.farmerProductCounter = t.farmerProductCounter) : QtyPost s s' := by
  refine ⟨h2.1, ?_, ?_⟩
  · intro P hp1 hp2
    rw [h2.2.1 P hp1 (by omega), h1.2.1 P hp1 hp2]
  · intro P hp1 hp2
    omega

theorem conservePost_acceptBuyRequest (s1 s' : State) (sender ts : Nat)
    (canReceive : Address → Bool) (br : BuyRequest) (p : RetailPack)
    (hI : Inv s1) (hp : p = s1.retailPacks br.packId)
    (hpne : p.packId ≠ 0) (outs : List (Address × Nat))
    (h : acceptBuyRequest s1 sender ts canReceive br p = .ok (s', outs)) :
    QtyPost s1 s' ∧ s'.farmerProductCounter = s1.farmerProductCounter := by
  subst hp
  simp only [acceptBuyRequest] at h
  split_ifs at h with w1
  all_goals simp only [Except.ok.injEq, Prod.mk.injEq] at h
  all_goals obtain ⟨hA, hB⟩ := h
  all_goals
    exact ⟨qtyPost_acceptReq_core s1 s' br.packId br.qtyKg _ _ hI hpne w1
      (by rw [← hA]) (by rw [← hA]) (by rw [← hA]) (by rw [← hA]) (by rw [← hA])
      (by rw [← hA]) (by rw [← hA]) (by rw [← hA]) (by rw [← hA]) (by rw [← hA])
      (by rfl) (by rfl) (by rfl) (by dsimp only; omega) (by rfl) (by rfl),
      by rw [← hA]⟩

theorem conservePost_approveBuyRequest (s s' : State) (sender ts : Nat)
    (canReceive : Address → Bool) (requestId : Nat) (accept : Bool)
    (outs : List (Address × Nat)) (hI : Inv s)
    (h : approveBuyRequest s sender ts canReceive requestId accept
      = .ok (s', outs)) : QtyPost s s' := by
  simp only [approveBuyRequest] at h
  split_ifs at h with w1 w2 w3 w4 w5 w6 w7
  · have hfr : QtyPost s
        { s with
          buyRequests := Function.update s.buyRequests requestId
            { s.buyRequests requestId with resolved := true, accepted := accept } } :=
      inv_conserved_frame _ _ rfl rfl rfl rfl rfl rfl rfl rfl rfl rfl hI
    have hacc := conservePost_acceptBuyRequest _ s' sender ts canReceive
      (s.buyRequests requestId) (s.retailPacks (s.buyRequests requestId).packId)
      hfr.1 rfl w4 outs h
    exact qtyPost_trans s _ s' hfr rfl hacc.1 hacc.2
  · simp only [Except.ok.injEq, Prod.mk.injEq] at h
    obtain ⟨hA, hB⟩ := h
    exact inv_conserved_frame _ _ (by rw [← hA]) (by rw [← hA]) (by rw [← hA])
      (by rw [← hA]) (by rw [← hA]) (by rw [← hA]) (by rw [← hA]) (by rw [← hA])
      (by rw [← hA]) (by rw [← hA]) hI
  · simp only [Except.ok.injEq, Prod.mk.injEq] at h
    obtain ⟨hA, hB⟩ := h
    exact inv_conserved_frame _ _ (by rw [← hA]) (by rw [← hA]) (by rw [← hA])
      (by rw [← hA]) (by rw [← hA]) (by rw [← hA]) (by rw [← hA]) (by rw [← hA])
      (by rw [← hA]) (by rw [← hA]) hI

/-- Core of the buyRetailUnit conservation argument: the unit u is debited
by exactly the quantity recorded in the one new purchase record. -/
theorem qtyPost_buyUnit_core (s s' : State) (u q : Nat)
    (U' : RetailUnit) (PR' : PurchaseRecord) (hI : Inv s)
    (hune : (s.retailUnits u).unitId ≠ 0)
    (hq : q ≤ (s.retailUnits u).quantityKg)
    (hc1 : s'.farmerProductCounter = s.farmerProductCounter)
    (hc2 : s'.distributorBatchCounter = s.distributorBatchCounter)
    (hc3 : s'.retailPackCounter = s.retailPackCounter)
    (hc4 : s'.retailUnitCounter = s.retailUnitCounter)
    (hc5 : s'.purchaseCounter = s.purchaseCounter + 1)
    (hm1 : s'.farmerProducts = s.farmerProducts)
    (hm2 : s'.distributorBatches = s.distributorBatches)
    (hm3 : s'.retailPacks = s.retailPacks)
    (hm4 : s'.retailUnits = Function.update s.retailUnits u U')
    (hm5 : s'.purchaseRecords
      = Function.update s.purchaseRecords (s.purchaseCounter + 1) PR')
    (hUid : U'.unitId = (s.retailUnits u).unitId)
    (hUpp : U'.parentPackId = (s.retailUnits u).parentPackId)
    (hUq : U'.quantityKg = (s.retailUnits u).quantityKg - q)
    (hPRunit : PR'.unitId = u)
    (hPRq : PR'.qtyKg = q) : QtyPost s s' := by
  have hurange := hI.unitIdRange u hune
  have hunitpp : ∀ j, (s'.retailUnits j).parentPackId
      = (s.retailUnits j).parentPackId := by
    intro j
    rw [hm4]
    by_cases hj : j = u
    · subst hj; rw [Function.update_same, hUpp]
    · rw [Function.update_noteq hj]
  have huorigin : ∀ j, unitOriginOf s' j = unitOriginOf s j := by
    intro j
    unfold unitOriginOf packOriginOf
    rw [hm2, hm3, hunitpp j]
  refine ⟨?_, ?_, ?_⟩
  · constructor
    · intro i hne; rw [hm1] at hne; rw [hc1]; exact hI.fpIdRange i hne
    · intro i hne; rw [hm2] at hne; rw [hc2]; exact hI.dbIdRange i hne
    · intro i hne; rw [hm3] at hne; rw [hc3]; exact hI.packIdRange i hne
    · intro i hne
      rw [hc4]
      by_cases hi : i = u
      · subst hi; exact hurange
      · rw [hm4, Function.update_noteq hi] at hne
        exact hI.unitIdRange i hne
    · intro i h1 h2; rw [hc2] at h2; rw [hm2, hc1]; exact hI.dbOrigin i h1 h2
    · intro i h1 h2; rw [hc3] at h2; rw [hm3, hc2]; exact hI.packLink i h1 h2
    · intro i h1 h2
      rw [hc4] at h2
      rw [hunitpp i, hc3]
      exact hI.unitLink i h1 h2
    · intro i h1 h2
      rw [hc5] at h2
      rw [hm5, hc4]
      by_cases hi : i = s.purchaseCounter + 1
      · subst hi
        rw [Function.update_same, hPRunit]
        exact hurange
      · rw [Function.update_noteq hi]
        exact hI.purchaseLink i h1 (by omega)
  · intro P h1 h2
    have e1 : dbContrib s' = dbContrib s := by
      funext Q i; unfold dbContrib; rw [hm2]
    have e2 : packContrib s' = packContrib s := by
      funext Q i; unfold packContrib packOriginOf; rw [hm2, hm3]
    have hex : sumN s.retailUnitCounter (unitContrib s' P) + unitContrib s P u
        = sumN s.retailUnitCounter (unitContrib s P) + unitContrib s' P u := by
      refine sumN_exchange hurange.1 hurange.2 fun i hi1 hi2 hid => ?_
      unfold unitContrib
      rw [huorigin i, hm4, Function.update_noteq hid]
    have hat_old : unitContrib s P u
        = if unitOriginOf s u = P then (s.retailUnits u).quantityKg else 0 := rfl
    have hat_new : unitContrib s' P u
        = if unitOriginOf s u = P
          then (s.retailUnits u).quantityKg - q else 0 := by
      unfold unitContrib
      rw [huorigin u, hm4, Function.update_same, hUq]
    have eunitdef : unitQtySum s' P = sumN s.retailUnitCounter (unitContrib s' P) := by
      unfold unitQtySum; rw [hc4]
    have epurch : purchaseQtySum s' P = purchaseQtySum s P
        + (if unitOriginOf s u = P then q else 0) := by
      unfold purchaseQtySum
      rw [hc5, sumN_succ]
      have hcong : sumN s.purchaseCounter (purchaseContrib s' P)
          = sumN s.purchaseCounter (purchaseContrib s P) := by
        refine sumN_congr fun i hi1 hi2 => ?_
        unfold purchaseContrib purchaseOriginOf
        rw [huorigin, hm5, Function.update_noteq (by omega)]
      have hnew : purchaseContrib s' P (s.purchaseCounter + 1)
          = (if unitOriginOf s u = P then q else 0) := by
        unfold purchaseContrib purchaseOriginOf
        rw [hm5, Function.update_same, hPRunit, hPRq, huorigin u]
      rw [hcong, hnew]
    unfold conserved
    unfold dbQtySum packQtySum
    rw [hm1, hc2, hc3, e1, e2, eunitdef, epurch]
    by_cases hcond : unitOriginOf s u = P
    · rw [if_pos hcond] at hat_old hat_new ⊢
      unfold unitQtySum at *
      omega
    · rw [if_neg hcond] at hat_old hat_new ⊢
      unfold unitQtySum at *
      omega
  · intro P h1 h2
    rw [hc1] at h2
    omega

theorem conservePost_buyRetailUnit (s s' : State) (sender value ts : Nat)
    (canReceive : Address → Bool) (unitId qtyKg : Nat)
    (outs : List (Address × Nat)) (hI : Inv s)
    (h : buyRetailUnit s sender value ts canReceive unitId qtyKg
      = .ok (s', outs)) : QtyPost s s' := by
  simp only [buyRetailUnit] at h
  split_ifs at h with w1 w2 w3 w4 w5
  all_goals simp only [Except.ok.injEq, Prod.mk.injEq] at h
  all_goals obtain ⟨hA, hB⟩ := h
  all_goals
    exact qtyPost_buyUnit_core s s' unitId qtyKg _ _ hI w1.1 w2.2
      (by rw [← hA]) (by rw [← hA]) (by rw [← hA]) (by rw [← hA]) (by rw [← hA])
      (by rw [← hA]) (by rw [← hA]) (by rw [← hA]) (by rw [← hA]) (by rw [← hA])
      (by rfl) (by rfl) (by rfl) (by rfl) (by rfl)

/-!  Preservation of the identity invariant (pending implies no role). -/

theorem userInv_of_users_eq (s s' : State) (hu : s'.users = s.users)
    (hU : UserInv s) : UserInv s' := by
  intro a
  rw [hu]
  exact hU a

theorem userInv_requestRole (s s' : State) (sender ts role : Nat)
    (idHash meta : String) (outs : List (Address × Nat)) (hU : UserInv s)
    (h : requestRole s sender ts role idHash meta = .ok (s', outs)) :
    UserInv s' := by
  simp only [requestRole] at h
  split_ifs at h with w1 w2
  simp only [Except.ok.injEq, Prod.mk.injEq] at h
  obtain ⟨hA, hB⟩ := h
  intro a
  rw [show s'.users = Function.update s.users sender
    { s.users sender with
      requested := true, idHash := idHash, meta := meta,
      appliedAt := ts, exists' := true } by rw [← hA, trackUser_users]]
  by_cases ha : a = sender
  · subst ha
    rw [Function.update_same]
    intro _
    show (s.users a).role = Role.None
    exact not_not.mp w2
  · rw [Function.update_noteq ha]
    exact hU a

theorem userInv_approveRole (s s' : State) (sender ts user role : Nat)
    (outs : List (Address × Nat)) (hU : UserInv s)
    (h : approveRole s sender ts user role = .ok (s', outs)) : UserInv s' := by
  simp only [approveRole] at h
  split_ifs at h
  simp only [Except.ok.injEq, Prod.mk.injEq] at h
  obtain ⟨hA, hB⟩ := h
  intro a
  rw [show s'.users = Function.update s.users user
    { s.users user with
      role := Role.ofUint8 role, requested := false, appliedAt := ts }
    by rw [← hA, trackUser_users]]
  by_cases ha : a = user
  · subst ha
    rw [Function.update_same]
    intro hcon
    dsimp only at hcon
    exact Bool.noConfusion hcon
  · rw [Function.update_noteq ha]
    exact hU a

theorem userInv_revokeRole (s s' : State) (sender user : Nat)
    (outs : List (Address × Nat)) (hU : UserInv s)
    (h : revokeRole s sender user = .ok (s', outs)) : UserInv s' := by
  simp only [revokeRole] at h
  split_ifs at h
  simp only [Except.ok.injEq, Prod.mk.injEq] at h
  obtain ⟨hA, hB⟩ := h
  intro a
  rw [show s'.users = Function.update s.users user
    { s.users user with role := Role.None, requested := false } by rw [← hA]]
  by_cases ha : a = user
  · subst ha
    rw [Function.update_same]
    intro hcon
    dsimp only at hcon
    exact Bool.noConfusion hcon
  · rw [Function.update_noteq ha]
    exact hU a

theorem userInv_acceptBuyRequest (s1 s' : State) (sender ts : Nat)
    (canReceive : Address → Bool) (br : BuyRequest) (p : RetailPack)
    (hU : UserInv s1)
    (hside : br.wantsRetailer = false ∨ (s1.users br.requester).requested = false)
    (outs : List (Address × Nat))
    (h : acceptBuyRequest s1 sender ts canReceive br p = .ok (s', outs)) :
    UserInv s' := by
  simp only [acceptBuyRequest] at h
  by_cases hw : br.wantsRetailer = true ∧ (s1.users br.requester).role ≠ Role.Retailer
  · simp only [if_pos hw] at h
    split_ifs at h with w1 w2 w3
    all_goals simp only [Except.ok.injEq, Prod.mk.injEq] at h
    all_goals obtain ⟨hA, hB⟩ := h
    all_goals intro a
    all_goals rw [show s'.users = Function.update s1.users br.requester
      { s1.users br.requester with role := Role.Retailer, exists' := true }
      from by rw [← hA]]
    all_goals
      (by_cases ha : a = br.requester
       · subst ha
         rw [Function.update_same]
         intro hcon
         rcases hside with hside | hside
         · rw [hside] at hw
           exact absurd hw.1 (by decide)
         · refine absurd hcon ?_
           show ¬ ((s1.users br.requester).requested = true)
           rw [hside]
           decide
       · rw [Function.update_noteq ha]
         exact hU a)
  · simp only [if_neg hw] at h
    split_ifs at h with w1 w2 w3
    all_goals simp only [Except.ok.injEq, Prod.mk.injEq] at h
    all_goals obtain ⟨hA, hB⟩ := h
    all_goals exact userInv_of_users_eq s1 s' (by rw [← hA]) hU

theorem userInv_approveBuyRequest (s s' : State) (sender ts : Nat)
    (canReceive : Address → Bool) (requestId : Nat) (accept : Bool)
    (outs : List (Address × Nat)) (hU : UserInv s)
    (hside : (s.buyRequests requestId).wantsRetailer = false ∨
      (s.users (s.buyRequests requestId).requester).requested = false)
    (h : approveBuyRequest s sender ts canReceive requestId accept
      = .ok (s', outs)) : UserInv s' := by
  simp only [approveBuyRequest] at h
  split_ifs at h with w1 w2 w3 w4 w5 w6 w7
  · refine userInv_acceptBuyRequest _ s' sender ts canReceive
      (s.buyRequests requestId) (s.retailPacks (s.buyRequests requestId).packId)
      ?_ ?_ outs h
    · intro a
      exact hU a
    · exact hside
  · simp only [Except.ok.injEq, Prod.mk.injEq] at h
    obtain ⟨hA, hB⟩ := h
    exact userInv_of_users_eq s s' (by rw [← hA]) hU
  · simp only [Except.ok.injEq, Prod.mk.injEq] at h
    obtain ⟨hA, hB⟩ := h
    exact userInv_of_users_eq s s' (by rw [← hA]) hU

theorem userInv_rejectBuyRequest (s s' : State) (sender ts : Nat)
    (canReceive : Address → Bool) (requestId : Nat)
    (outs : List (Address × Nat)) (hU : UserInv s)
    (h : approveBuyRequest s sender ts canReceive requestId false
      = .ok (s', outs)) : UserInv s' := by
  simp only [approveBuyRequest] at h
  split_ifs at h with w1 w2 w3 w4 w5 w6 w7
  all_goals
    first
    | exact absurd w6 (by decide)
    | (simp only [Except.ok.injEq, Prod.mk.injEq] at h
       obtain ⟨hA, hB⟩ := h
       exact userInv_of_users_eq s s' (by rw [← hA]) hU)

/-!  Exact effect of the two split operations. -/

theorem zip3_get_fst (qs ps : List Nat) (hs : List String)
    (h1 : qs.length = ps.length) (h2 : qs.length = hs.length) :
    ∀ (i : Nat) (hi : i < qs.length) (hL : i < ((qs.zip ps).zip hs).length),
    (((qs.zip ps).zip hs).get ⟨i, hL⟩).1.1 = qs[i] := by
  induction qs generalizing ps hs with
  | nil => intro i hi hL; exact absurd hi (by simp)
  | cons q qs0 ih =>
    cases ps with
    | nil => simp at h1
    | cons p ps0 =>
      cases hs with
      | nil => simp at h2
      | cons v hs0 =>
        intro i hi hL
        cases i with
        | zero => rfl
        | succ j =>
          exact ih ps0 hs0 (by simpa using h1) (by simpa using h2) j
            (by simpa using hi) (by simpa using hL)

theorem splitDb_ok_spec (s : State) (sender ts d : Nat) (qs ps : List Nat)
    (hs : List String) (s' : State) (outs : List (Address × Nat))
    (h : splitDistributorBatch s sender ts d qs ps hs = .ok (s', outs)) :
    qs.length = ps.length ∧ qs.length = hs.length ∧
    sumList qs ≤ (s.distributorBatches d).quantityKg ∧
    s'.retailPackCounter = s.retailPackCounter + qs.length ∧
    (s'.distributorBatches d).quantityKg
      = (s.distributorBatches d).quantityKg - sumList qs ∧
    ((s.distributorBatches d).quantityKg = sumList qs →
      (s'.distributorBatches d).active = false) ∧
    (∀ (i : Nat) (hi : i < qs.length),
      (s'.retailPacks (s.retailPackCounter + 1 + i)).packId
          = s.retailPackCounter + 1 + i ∧
      (s'.retailPacks (s.retailPackCounter + 1 + i)).distributorBatchId = d ∧
      (s'.retailPacks (s.retailPackCounter + 1 + i)).quantityKg
          = qs.get ⟨i, hi⟩) ∧
    (∀ j, j ≤ s.retailPackCounter → s'.retailPacks j = s.retailPacks j) := by
  simp only [splitDistributorBatch] at h
  split_ifs at h with w1 w2 w3 w4 w5 w6 w7
  all_goals
    (simp only [Except.ok.injEq, Prod.mk.injEq] at h
     obtain ⟨hA, hB⟩ := h
     have hlen1 : qs.length = ps.length := not_not.mp w4
     have hlen2 : qs.length = hs.length := not_not.mp w5
     have hLlen : ((qs.zip ps).zip hs).length = qs.length :=
       zip3_length qs ps hs hlen1 hlen2
     refine ⟨hlen1, hlen2, w6, ?_, ?_, ?_, ?_, ?_⟩
     · rw [← hA]
       dsimp only
       rw [recLoop_fst (mkPack d sender ts) ((qs.zip ps).zip hs)
         s.retailPackCounter s.retailPacks, hLlen]
     · rw [← hA]
       dsimp only
       rw [Function.update_same]
     · intro hz
       rw [← hA]
       dsimp only
       rw [Function.update_same]
       try first
       | rfl
       | exact absurd (by omega) w7
     · intro i hi
       rw [← hA]
       dsimp only
       have hgi : i < ((qs.zip ps).zip hs).length := by rw [hLlen]; exact hi
       rw [recLoop_get (mkPack d sender ts) ((qs.zip ps).zip hs)
         s.retailPackCounter s.retailPacks i hgi]
       exact ⟨rfl, rfl, zip3_get_fst qs ps hs hlen1 hlen2 i hi hgi⟩
     · intro j hj
       rw [← hA]
       dsimp only
       exact recLoop_preserve (mkPack d sender ts) ((qs.zip ps).zip hs)
         s.retailPackCounter s.retailPacks j hj)

theorem splitUnit_ok_spec (s : State) (sender ts u : Nat) (qs ps : List Nat)
    (hs : List String) (s' : State) (outs : List (Address × Nat))
    (hu : u ≤ s.retailUnitCounter)
    (h : splitRetailUnit s sender ts u qs ps hs = .ok (s', outs)) :
    qs.length = ps.length ∧ qs.length = hs.length ∧
    sumList qs ≤ (s.retailUnits u).quantityKg ∧
    s'.retailUnitCounter = s.retailUnitCounter + qs.length ∧
    (s'.retailUnits u).quantityKg
      = (s.retailUnits u).quantityKg - sumList qs ∧
    ((s.retailUnits u).quantityKg = sumList qs →
      (s'.retailUnits u).available = false) ∧
    (∀ (i : Nat) (hi : i < qs.length),
      (s'.retailUnits (s.retailUnitCounter + 1 + i)).unitId
          = s.retailUnitCounter + 1 + i ∧
      (s'.retailUnits (s.retailUnitCounter + 1 + i)).parentPackId
          = (s.retailUnits u).parentPackId ∧
      (s'.retailUnits (s.retailUnitCounter + 1 + i)).quantityKg
          = qs.get ⟨i, hi⟩) ∧
    (∀ j, j ≤ s.retailUnitCounter → j ≠ u → s'.retailUnits j = s.retailUnits j) := by
  simp only [splitRetailUnit] at h
  split_ifs at h with w1 w2 w3 w4 w5 w6 w7
  all_goals
    (simp only [Except.ok.injEq, Prod.mk.injEq] at h
     obtain ⟨hA, hB⟩ := h
     have hlen1 : qs.length = ps.length := not_not.mp w4
     have hlen2 : qs.length = hs.length := not_not.mp w5
     have hLlen : ((qs.zip ps).zip hs).length = qs.length :=
       zip3_length qs ps hs hlen1 hlen2
     have hroot2 : (recLoop (mkUnit (s.retailUnits u).parentPackId sender ts)
         (s.retailUnitCounter, s.retailUnits) ((qs.zip ps).zip hs)).2 u
         = s.retailUnits u :=
       recLoop_preserve (mkUnit (s.retailUnits u).parentPackId sender ts)
         ((qs.zip ps).zip hs) s.retailUnitCounter s.retailUnits u hu
     refine ⟨hlen1, hlen2, w6, ?_, ?_, ?_, ?_, ?_⟩
     · rw [← hA]
       dsimp only
       rw [recLoop_fst (mkUnit (s.retailUnits u).parentPackId sender ts)
         ((qs.zip ps).zip hs) s.retailUnitCounter s.retailUnits, hLlen]
     · rw [← hA]
       dsimp only
       rw [Function.update_same]
       dsimp only
       rw [hroot2]
     · intro hz
       rw [← hA]
       dsimp only
       rw [Function.update_same]
       try first
       | rfl
       | exact absurd (by rw [hroot2]; omega) w7
     · intro i hi
       rw [← hA]
       dsimp only
       have hgi : i < ((qs.zip ps).zip hs).length := by rw [hLlen]; exact hi
       rw [Function.update_noteq
         (show s.retailUnitCounter + 1 + i ≠ u from by omega)]
       rw [recLoop_get (mkUnit (s.retailUnits u).parentPackId sender ts)
         ((qs.zip ps).zip hs) s.retailUnitCounter s.retailUnits i hgi]
       exact ⟨rfl, rfl, zip3_get_fst qs ps hs hlen1 hlen2 i hi hgi⟩
     · intro j hj hju
       rw [← hA]
       dsimp only
       rw [Function.update_noteq hju]
       exact recLoop_preserve (mkUnit (s.retailUnits u).parentPackId sender ts)
         ((qs.zip ps).zip hs) s.retailUnitCounter s.retailUnits j hj)

/-!  A successful approveBuyRequest stamps the request resolved. -/

theorem approveBuyRequest_marks_resolved (s s' : State) (sender ts : Nat)
    (canReceive : Address → Bool) (requestId : Nat) (accept : Bool)
    (outs : List (Address × Nat))
    (h : approveBuyRequest s sender ts canReceive requestId accept
      = .ok (s', outs)) :
    s'.buyRequests requestId
      = { s.buyRequests requestId with resolved := true, accepted := accept }
    ∧ (s.buyRequests requestId).requestId ≠ 0 := by
  simp only [approveBuyRequest] at h
  split_ifs at h with w1 w2 w3 w4 w5 w6 w7
  · refine ⟨?_, w2⟩
    simp only [acceptBuyRequest] at h
    split_ifs at h with v1 v2 v3
    all_goals simp only [Except.ok.injEq, Prod.mk.injEq] at h
    all_goals obtain ⟨hA, hB⟩ := h
    all_goals rw [show s'.buyRequests = Function.update s.buyRequests requestId
      { s.buyRequests requestId with resolved := true, accepted := accept }
      from by rw [← hA]]
    all_goals rw [Function.update_same]
  · refine ⟨?_, w2⟩
    simp only [Except.ok.injEq, Prod.mk.injEq] at h
    obtain ⟨hA, hB⟩ := h
    rw [show s'.buyRequests = Function.update s.buyRequests requestId
      { s.buyRequests requestId with resolved := true, accepted := accept }
      from by rw [← hA]]
    rw [Function.update_same]
  · refine ⟨?_, w2⟩
    simp only [Except.ok.injEq, Prod.mk.injEq] at h
    obtain ⟨hA, hB⟩ := h
    rw [show s'.buyRequests = Function.update s.buyRequests requestId
      { s.buyRequests requestId with resolved := true, accepted := accept }
      from by rw [← hA]]
    rw [Function.update_same]

/-!  Exact effect of a successful accept on the user table. -/

theorem acceptBuyRequest_users_spec (s0 s1 s' : State) (sender ts : Nat)
    (canReceive : Address → Bool) (br : BuyRequest) (p : RetailPack)
    (outs : List (Address × Nat)) (hu : s1.users = s0.users)
    (h : acceptBuyRequest s1 sender ts canReceive br p = .ok (s', outs)) :
    s'.users
      = if br.wantsRetailer = true ∧ (s0.users br.requester).role ≠ Role.Retailer
        then Function.update s0.users br.requester
          { s0.users br.requester with role := Role.Retailer, exists' := true }
        else s0.users := by
  simp only [acceptBuyRequest, hu] at h
  by_cases hw : br.wantsRetailer = true
      ∧ (s0.users br.requester).role ≠ Role.Retailer
  · simp only [if_pos hw] at h ⊢
    split_ifs at h with v1 v2 v3
    all_goals simp only [Except.ok.injEq, Prod.mk.injEq] at h
    all_goals obtain ⟨hA, hB⟩ := h
    all_goals rw [← hA]
  · simp only [if_neg hw] at h ⊢
    split_ifs at h with v1 v2 v3
    all_goals simp only [Except.ok.injEq, Prod.mk.injEq] at h
    all_goals obtain ⟨hA, hB⟩ := h
    all_goals rw [← hA]
    all_goals exact hu

/-!  The claims. -/

/-- Claim C1, amended.  The claimed per-product equation
quantityKg + dbQtySum = original quantity is false as stated: splitting a
distributor batch moves quantity out of the distributor-batch table, and
updateProduct overwrites quantityKg at will (see the counterexample).  What
the ledger does maintain, on every well-formed state and for every call in
which updateProduct does not overwrite the stored quantity (StepQ), is the
five-table total: quantityKg of the product, plus all quantity held in
distributor batches, retail packs, retail units and purchase records
descending from it, is unchanged by every call, and every freshly created
product accounts exactly for its own quantity. -/
theorem C1_conservation (s s' : State) (hI : Inv s) (h : StepQ s s') :
    QtyPost s s' := by
  cases h with
  | requestRole s0 sender ts role idHash meta outs h =>
      exact conservePost_requestRole _ _ _ _ _ _ _ _ hI h
  | approveRole s0 sender ts user role outs h =>
      exact conservePost_approveRole _ _ _ _ _ _ _ hI h
  | revokeRole s0 sender user outs h =>
      exact conservePost_revokeRole _ _ _ _ _ hI h
  | transferOwnership s0 sender newOwner outs h =>
      exact conservePost_transferOwnership _ _ _ _ _ hI h
  | renounceOwnership s0 sender outs h =>
      exact conservePost_renounceOwnership _ _ _ _ hI h
  | addProduct s0 sender ts cropName cropPeriod daysToHarvest quantityKg
      pricePerKg location visibility ipfsHash outs h =>
      exact conservePost_addProduct _ _ _ _ _ _ _ _ _ _ _ _ _ hI h
  | updateProduct s0 sender batchId newQuantityKg newPricePerKg newVisibility
      newIpfsHash setActive outs hq h =>
      subst hq
      exact conservePost_updateProduct0 _ _ _ _ _ _ _ _ _ hI h
  | buyFarmerBatch s0 sender value ts canReceive farmerBatchId qtyKg outs h =>
      exact conservePost_buyFarmerBatch _ _ _ _ _ _ _ _ _ hI h
  | splitDistributorBatch s0 sender ts distributorBatchId splitQuantities
      pricesPerKg ipfsHashes outs h =>
      exact conservePost_splitDistributorBatch _ _ _ _ _ _ _ _ _ hI h
  | listPack s0 sender packId visibility optionalPrivateAddress outs h =>
      exact conservePost_listPack _ _ _ _ _ _ _ hI h
  | createBuyRequest s0 sender value ts packId qtyKg wantsRetailer outs h =>
      exact conservePost_createBuyRequest _ _ _ _ _ _ _ _ _ hI h
  | approveBuyRequest s0 sender ts canReceive requestId accept outs h =>
      exact conservePost_approveBuyRequest _ _ _ _ _ _ _ _ hI h
  | splitRetailUnit s0 sender ts unitId unitQuantities unitPricesPerKg
      ipfsHashes outs h =>
      exact conservePost_splitRetailUnit _ _ _ _ _ _ _ _ _ hI h
  | listUnitForCustomers s0 sender unitId outs h =>
      exact conservePost_listUnitForCustomers _ _ _ _ _ hI h
  | buyRetailUnit s0 sender value ts canReceive unitId qtyKg outs h =>
      exact conservePost_buyRetailUnit _ _ _ _ _ _ _ _ _ hI h
  | withdraw s0 sender canReceive outs h =>
      exact conservePost_withdraw _ _ _ _ _ hI h
  | receiveEther sender value =>
      exact conservePost_receiveEther _ sender value hI

/-- Claim C1, counterexample to the wording.  At the reachable state demo7
the farmer product 1 was created with quantity 100, yet its remaining
quantity plus everything held in distributor batches is 60: the missing 40
sits in the retail packs the distributor split off.  Moreover updateProduct,
an operation other than buyFarmerBatch, rewrites the stored quantity of the
product from 60 to 77. -/
theorem C1_counterexample :
    ReachableFrom 1 0 demo7
    ∧ (demo5.farmerProducts 1).quantityKg = 100
    ∧ (demo7.farmerProducts 1).quantityKg + dbQtySum demo7 1 = 60
    ∧ (∃ p, updateProduct demo7 2 1 77 0 2 "" true = Except.ok p)
    ∧ ((okSt (updateProduct demo7 2 1 77 0 2 "" true)).farmerProducts 1).quantityKg
        = 77 :=
  ⟨demo7_reachable, by decide, by decide, ⟨_, rfl⟩, by decide⟩

/-- Claim C1, witness: the invariant hypothesis and a concrete step both
hold at the state demo4, where the farmer adds the first product. -/
theorem C1_conservation_witness : Inv demo4 ∧ QtyPost demo4 demo5 := by
  have hI : Inv demo4 :=
    ⟨fun i hne => absurd rfl hne, fun i hne => absurd rfl hne,
     fun i hne => absurd rfl hne, fun i hne => absurd rfl hne,
     fun i h1 h2 => absurd (le_trans h1 h2) (by decide),
     fun i h1 h2 => absurd (le_trans h1 h2) (by decide),
     fun i h1 h2 => absurd (le_trans h1 h2) (by decide),
     fun i h1 h2 => absurd (le_trans h1 h2) (by decide)⟩
  exact ⟨hI, C1_conservation demo4 demo5 hI
    (StepQ.addProduct _ _ 2 5 "Rice" "Kharif" 120 100 5 "Guntur" 1 "" [] rfl)⟩

/-- Claim C2, confirmed.  For both split operations: a successful call
implies the three array lengths agree and the requested total S is within
the parent's remaining quantity, bumps the child counter by exactly one per
array slot, debits the parent by exactly S (forcing it inactive/unavailable
when the remainder hits zero), creates at the fresh ids one child per slot
carrying exactly the slot's quantity and linked to the parent, and touches
no previously existing child slot; conversely, mismatched lengths or an
excessive total make the call return an error, and an erroneous call of the
embedding returns no state, modelling the reverting require of the source.
The splitRetailUnit half assumes the root index lies within the unit-table
range, which holds on every well-formed state. -/
theorem C2_split_operations :
    (∀ (s : State) (sender ts d : Nat) (qs ps : List Nat) (hs : List String)
      (s' : State) (outs : List (Address × Nat)),
      splitDistributorBatch s sender ts d qs ps hs = .ok (s', outs) →
      qs.length = ps.length ∧ qs.length = hs.length ∧
      sumList qs ≤ (s.distributorBatches d).quantityKg ∧
      s'.retailPackCounter = s.retailPackCounter + qs.length ∧
      (s'.distributorBatches d).quantityKg
        = (s.distributorBatches d).quantityKg - sumList qs ∧
      ((s.distributorBatches d).quantityKg = sumList qs →
        (s'.distributorBatches d).active = false) ∧
      (∀ (i : Nat) (hi : i < qs.length),
        (s'.retailPacks (s.retailPackCounter + 1 + i)).packId
            = s.retailPackCounter + 1 + i ∧
        (s'.retailPacks (s.retailPackCounter + 1 + i)).distributorBatchId = d ∧
        (s'.retailPacks (s.retailPackCounter + 1 + i)).quantityKg
            = qs.get ⟨i, hi⟩) ∧
      (∀ j, j ≤ s.retailPackCounter → s'.retailPacks j = s.retailPacks j)) ∧
    (∀ (s : State) (sender ts d : Nat) (qs ps : List Nat) (hs : List String),
      (qs.length ≠ ps.length ∨ qs.length ≠ hs.length ∨
        ¬ (sumList qs ≤ (s.distributorBatches d).quantityKg)) →
      ∀ (s' : State) (outs : List (Address × Nat)),
        splitDistributorBatch s sender ts d qs ps hs ≠ .ok (s', outs)) ∧
    (∀ (s : State) (sender ts u : Nat) (qs ps : List Nat) (hs : List String)
      (s' : State) (outs : List (Address × Nat)),
      u ≤ s.retailUnitCounter →
      splitRetailUnit s sender ts u qs ps hs = .ok (s', outs) →
      qs.length = ps.length ∧ qs.length = hs.length ∧
      sumList qs ≤ (s.retailUnits u).quantityKg ∧
      s'.retailUnitCounter = s.retailUnitCounter + qs.length ∧
      (s'.retailUnits u).quantityKg
        = (s.retailUnits u).quantityKg - sumList qs ∧
      ((s.retailUnits u).quantityKg = sumList qs →
        (s'.retailUnits u).available = false) ∧
      (∀ (i : Nat) (hi : i < qs.length),
        (s'.retailUnits (s.retailUnitCounter + 1 + i)).unitId
            = s.retailUnitCounter + 1 + i ∧
        (s'.retailUnits (s.retailUnitCounter + 1 + i)).parentPackId
            = (s.retailUnits u).parentPackId ∧
        (s'.retailUnits (s.retailUnitCounter + 1 + i)).quantityKg
            = qs.get ⟨i, hi⟩) ∧
      (∀ j, j ≤ s.retailUnitCounter → j ≠ u →
        s'.retailUnits j = s.retailUnits j)) ∧
    (∀ (s : State) (sender ts u : Nat) (qs ps : List Nat) (hs : List String),
      (qs.length ≠ ps.length ∨ qs.length ≠ hs.length ∨
        ¬ (sumList qs ≤ (s.retailUnits u).quantityKg)) →
      ∀ (s' : State) (outs : List (Address × Nat)),
        splitRetailUnit s sender ts u qs ps hs ≠ .ok (s', outs)) := by
  refine ⟨?_, ?_, ?_, ?_⟩
  · intro s sender ts d qs ps hs s' outs h
    exact splitDb_ok_spec s sender ts d qs ps hs s' outs h
  · intro s sender ts d qs ps hs hbad s' outs hok
    have hspec := splitDb_ok_spec s sender ts d qs ps hs s' outs hok
    rcases hbad with hb | hb | hb
    · exact hb hspec.1
    · exact hb hspec.2.1
    · exact hb hspec.2.2.1
  · intro s sender ts u qs ps hs s' outs hu h
    exact splitUnit_ok_spec s sender ts u qs ps hs s' outs hu h
  · intro s sender ts u qs ps hs hbad s' outs hok
    have hlen : qs.length = ps.length ∧ qs.length = hs.length ∧
        sumList qs ≤ (s.retailUnits u).quantityKg := by
      simp only [splitRetailUnit] at hok
      split_ifs at hok with w1 w2 w3 w4 w5 w6 w7
      all_goals exact ⟨not_not.mp w4, not_not.mp w5, w6⟩
    rcases hbad with hb | hb | hb
    · exact hb hlen.1
    · exact hb hlen.2.1
    · exact hb hlen.2.2

/-- Claim C2, witness: the two concrete splits of the demo run, exercising
both halves of the theorem. -/
theorem C2_split_witness :
    demo7.retailPackCounter = demo6.retailPackCounter + [15, 25].length ∧
    (demo7.distributorBatches 1).quantityKg
      = (demo6.distributorBatches 1).quantityKg - sumList [15, 25] ∧
    demoUnitSplit.retailUnitCounter = demo9.retailUnitCounter + [5].length ∧
    (demoUnitSplit.retailUnits 1).quantityKg
      = (demo9.retailUnits 1).quantityKg - sumList [5] := by
  have h1 := C2_split_operations.1 demo6 3 7 1 [15, 25] [7, 7] ["", ""]
    demo7 [] rfl
  have h2 := C2_split_operations.2.2.1 demo9 4 13 1 [5] [9] [""]
    demoUnitSplit [] (by decide) rfl
  exact ⟨h1.2.2.2.1, h1.2.2.2.2.1, h2.2.2.2.1, h2.2.2.2.2.1⟩

/-- Claim C3, confirmed.  After any successful approveBuyRequest on a
request id, a second approveBuyRequest on the same id by any caller holding
the Distributor role (the role the function demands) fails with
alreadyResolved, whatever timestamp, transfer oracle or accept flag it is
given.  An erroneous call of the embedding returns no state and no
transfers, modelling the reverting require of the source: no further fund
movement happens. -/
theorem C3_resolved_once (s s' : State) (sender ts : Nat)
    (canReceive : Address → Bool) (requestId : Nat) (accept : Bool)
    (outs : List (Address × Nat)) (sender2 ts2 : Nat)
    (canReceive2 : Address → Bool) (accept2 : Bool)
    (h : approveBuyRequest s sender ts canReceive requestId accept
      = .ok (s', outs))
    (hrole : (s'.users sender2).role = Role.Distributor) :
    approveBuyRequest s' sender2 ts2 canReceive2 requestId accept2
      = .error .alreadyResolved := by
  obtain ⟨hbr, hne⟩ := approveBuyRequest_marks_resolved s s' sender ts
    canReceive requestId accept outs h
  simp only [approveBuyRequest]
  rw [if_neg (show ¬ ((s'.users sender2).role ≠ Role.Distributor) from by
    rw [hrole]; exact fun hc => hc rfl)]
  rw [if_neg (show ¬ ((s'.buyRequests requestId).requestId = 0) from by
    rw [hbr]; exact hne)]
  rw [if_pos (show (s'.buyRequests requestId).resolved = true from by
    rw [hbr])]

/-- Claim C3, witness: the accepted demo request 1 cannot be resolved a
second time. -/
theorem C3_resolved_once_witness :
    approveBuyRequest demo9 3 20 alwaysPay 1 false
      = .error .alreadyResolved :=
  C3_resolved_once demo8 demo9 3 9 alwaysPay 1 true [(3, 105)] 3 20
    alwaysPay false rfl (by decide)

/-- Claim C4, confirmed.  Accepting an open, well-addressed request whose
quantity exceeds the pack's current remaining quantity fails with
packQtyExceeded, and in particular never produces a success state: in the
embedding an error returns no state and no transfer list, modelling the
source's revert, which unwinds the escrow release executed before the
quantity require. -/
theorem C4_accept_oversold (s : State) (sender ts : Nat)
    (canReceive : Address → Bool) (requestId : Nat)
    (h1 : (s.users sender).role = Role.Distributor)
    (h2 : (s.buyRequests requestId).requestId ≠ 0)
    (h3 : (s.buyRequests requestId).resolved = false)
    (h4 : (s.retailPacks (s.buyRequests requestId).packId).packId ≠ 0)
    (h5 : (s.retailPacks (s.buyRequests requestId).packId).distributor = sender)
    (hq : ¬ ((s.buyRequests requestId).qtyKg
      ≤ (s.retailPacks (s.buyRequests requestId).packId).quantityKg)) :
    approveBuyRequest s sender ts canReceive requestId true
      = .error .packQtyExceeded
    ∧ ∀ (s' : State) (outs : List (Address × Nat)),
        approveBuyRequest s sender ts canReceive requestId true
          ≠ .ok (s', outs) := by
  have hmain : approveBuyRequest s sender ts canReceive requestId true
      = .error .packQtyExceeded := by
    simp only [approveBuyRequest]
    rw [if_neg (show ¬ ((s.users sender).role ≠ Role.Distributor) from by
      rw [h1]; exact fun hc => hc rfl)]
    rw [if_neg h2]
    rw [if_neg (show ¬ ((s.buyRequests requestId).resolved = true) from by
      rw [h3]; exact fun hc => Bool.noConfusion hc)]
    rw [if_neg h4]
    rw [if_neg (show ¬ ((s.retailPacks (s.buyRequests requestId).packId).distributor
        ≠ sender) from by rw [h5]; exact fun hc => hc rfl)]
    try rw [if_neg (show ¬ ¬ (true = true) from fun hc => hc rfl)]
    try rw [if_neg (show ¬ ¬ True from fun hc => hc trivial)]
    simp only [acceptBuyRequest]
    first
    | rw [if_pos hq]
    | rw [if_neg hq]
    try rw [if_neg (show ¬ ¬ True from fun hc => hc trivial)]
  refine ⟨hmain, fun s' outs hc => ?_⟩
  rw [hmain] at hc
  exact Except.noConfusion hc

/-- Claim C4, witness: at demoOversold the open request 2 asks for 15 kg
from pack 1, which an earlier accepted request has already drained to 0. -/
theorem C4_accept_oversold_witness :
    approveBuyRequest demoOversold 3 11 alwaysPay 2 true
      = .error .packQtyExceeded :=
  (C4_accept_oversold demoOversold 3 11 alwaysPay 2 (by decide) (by decide)
    (by decide) (by decide) (by decide) (by decide)).1

/-- Claim C5, amended.  requestRole checks exactly two things: the
requested role must be Farmer (1) or Distributor (2), and the caller must
currently hold no role.  A caller with role None always succeeds, even with
an outstanding request already pending: the source has no AlreadyPending
check, so the claimed second failure mode does not exist (see the
counterexample, where a pending requester files again). -/
theorem C5_requestRole_checks (s : State) (sender ts role : Nat)
    (idHash meta : String) :
    (¬ (role = 1 ∨ role = 2) →
      requestRole s sender ts role idHash meta
        = .error .onlyFarmerOrDistributorRequest) ∧
    ((role = 1 ∨ role = 2) → (s.users sender).role ≠ Role.None →
      requestRole s sender ts role idHash meta = .error .alreadyHasRole) ∧
    ((role = 1 ∨ role = 2) → (s.users sender).role = Role.None →
      ∃ s', requestRole s sender ts role idHash meta = .ok (s', [])
        ∧ (s'.users sender).requested = true) := by
  refine ⟨?_, ?_, ?_⟩
  · intro hbad
    simp only [requestRole]
    rw [if_pos hbad]
  · intro hrole hne
    simp only [requestRole]
    rw [if_neg (not_not_intro hrole), if_pos hne]
  · intro hrole hnone
    refine ⟨trackUser
        { s with
          users := Function.update s.users sender
            { s.users sender with
              requested := true, idHash := idHash, meta := meta,
              appliedAt := ts, exists' := true } }
        sender, ?_, ?_⟩
    · simp only [requestRole]
      rw [if_neg (not_not_intro hrole),
        if_neg (show ¬ ((s.users sender).role ≠ Role.None) from
          not_not_intro hnone)]
    · rw [trackUser_users]
      dsimp only
      rw [Function.update_same]

/-- Claim C5, counterexample to the wording.  At the reachable state demo1
the caller 2 has a pending request (requested = true) and no role, yet a
second requestRole call by 2 succeeds instead of failing with
AlreadyPending. -/
theorem C5_counterexample :
    ReachableFrom 1 0 demo1
    ∧ (demo1.users 2).requested = true
    ∧ (demo1.users 2).role = Role.None
    ∧ ∃ p, requestRole demo1 2 13 1 "x" "y" = Except.ok p :=
  ⟨demo1_reachable, by decide, by decide, ⟨_, rfl⟩⟩

/-- Claim C5, witness: the three checks instantiated at demo1, caller 2,
role Farmer. -/
theorem C5_requestRole_checks_witness :
    ∃ s', requestRole demo1 2 13 1 "x" "y" = .ok (s', [])
      ∧ (s'.users 2).requested = true :=
  (C5_requestRole_checks demo1 2 13 1 "x" "y").2.2 (Or.inl rfl) (by decide)

set_option maxHeartbeats 1600000 in
/-- Claim C6, amended.  The identity invariant (a pending request implies
role None) is preserved by requestRole, approveRole, revokeRole, by every
operation that leaves the user table untouched, and by a rejecting
approveBuyRequest; an accepting approveBuyRequest preserves it only under
the side condition that the requester did not ask for the retailer upgrade
or has no pending request.  Without that side condition it is violated:
the promotion writes role Retailer without clearing the pending flag (see
the counterexample). -/
theorem C6_userInv_preservation :
    (∀ (s s' : State) (sender ts role : Nat) (idHash meta : String)
      (outs : List (Address × Nat)), UserInv s →
      requestRole s sender ts role idHash meta = .ok (s', outs) →
      UserInv s') ∧
    (∀ (s s' : State) (sender ts user role : Nat)
      (outs : List (Address × Nat)), UserInv s →
      approveRole s sender ts user role = .ok (s', outs) → UserInv s') ∧
    (∀ (s s' : State) (sender user : Nat) (outs : List (Address × Nat)),
      UserInv s → revokeRole s sender user = .ok (s', outs) → UserInv s') ∧
    (∀ (s s' : State) (sender newOwner : Nat) (outs : List (Address × Nat)),
      UserInv s → transferOwnership s sender newOwner = .ok (s', outs) →
      UserInv s') ∧
    (∀ (s s' : State) (sender : Nat) (outs : List (Address × Nat)),
      UserInv s → renounceOwnership s sender = .ok (s', outs) → UserInv s') ∧
    (∀ (s s' : State) (sender ts : Nat) (cropName cropPeriod : String)
      (daysToHarvest quantityKg pricePerKg : Nat) (location : String)
      (visibility : Nat) (ipfsHash : String) (outs : List (Address × Nat)),
      UserInv s →
      addProduct s sender ts cropName cropPeriod daysToHarvest quantityKg
        pricePerKg location visibility ipfsHash = .ok (s', outs) →
      UserInv s') ∧
    (∀ (s s' : State) (sender batchId newQuantityKg newPricePerKg
      newVisibility : Nat) (newIpfsHash : String) (setActive : Bool)
      (outs : List (Address × Nat)), UserInv s →
      updateProduct s sender batchId newQuantityKg newPricePerKg
        newVisibility newIpfsHash setActive = .ok (s', outs) →
      UserInv s') ∧
    (∀ (s s' : State) (sender value ts : Nat) (canReceive : Address → Bool)
      (farmerBatchId qtyKg : Nat) (outs : List (Address × Nat)),
      UserInv s →
      buyFarmerBatch s sender value ts canReceive farmerBatchId qtyKg
        = .ok (s', outs) →
      UserInv s') ∧
    (∀ (s s' : State) (sender ts distributorBatchId : Nat)
      (splitQuantities pricesPerKg : List Nat) (ipfsHashes : List String)
      (outs : List (Address × Nat)), UserInv s →
      splitDistributorBatch s sender ts distributorBatchId splitQuantities
        pricesPerKg ipfsHashes = .ok (s', outs) →
      UserInv s') ∧
    (∀ (s s' : State) (sender packId visibility optionalPrivateAddress : Nat)
      (outs : List (Address × Nat)), UserInv s →
      listPack s sender packId visibility optionalPrivateAddress
        = .ok (s', outs) →
      UserInv s') ∧
    (∀ (s s' : State) (sender value ts packId qtyKg : Nat)
      (wantsRetailer : Bool) (outs : List (Address × Nat)), UserInv s →
      createBuyRequest s sender value ts packId qtyKg wantsRetailer
        = .ok (s', outs) →
      UserInv s') ∧
    (∀ (s s' : State) (sender ts : Nat) (canReceive : Address → Bool)
      (requestId : Nat) (accept : Bool) (outs : List (Address × Nat)),
      UserInv s →
      ((s.buyRequests requestId).wantsRetailer = false ∨
        (s.users (s.buyRequests requestId).requester).requested = false) →
      approveBuyRequest s sender ts canReceive requestId accept
        = .ok (s', outs) →
      UserInv s') ∧
    (∀ (s s' : State) (sender ts : Nat) (canReceive : Address → Bool)
      (requestId : Nat) (outs : List (Address × Nat)), UserInv s →
      approveBuyRequest s sender ts canReceive requestId false
        = .ok (s', outs) →
      UserInv s') ∧
    (∀ (s s' : State) (sender ts unitId : Nat)
      (unitQuantities unitPricesPerKg : List Nat) (ipfsHashes : List String)
      (outs : List (Address × Nat)), UserInv s →
      splitRetailUnit s sender ts unitId unitQuantities unitPricesPerKg
        ipfsHashes = .ok (s', outs) →
      UserInv s') ∧
    (∀ (s s' : State) (sender unitId : Nat) (outs : List (Address × Nat)),
      UserInv s → listUnitForCustomers s sender unitId = .ok (s', outs) →
      UserInv s') ∧
    (∀ (s s' : State) (sender value ts : Nat) (canReceive : Address → Bool)
      (unitId qtyKg : Nat) (outs : List (Address × Nat)), UserInv s →
      buyRetailUnit s sender value ts canReceive unitId qtyKg
        = .ok (s', outs) →
      UserInv s') ∧
    (∀ (s s' : State) (sender : Nat) (canReceive : Address → Bool)
      (outs : List (Address × Nat)), UserInv s →
      withdraw s sender canReceive = .ok (s', outs) → UserInv s') ∧
    (∀ (s : State) (sender value : Nat), UserInv s →
      UserInv (receiveEther s sender value)) := by
  refine ⟨?_, ?_, ?_, ?_, ?_, ?_, ?_, ?_, ?_, ?_, ?_, ?_, ?_, ?_, ?_, ?_,
    ?_, ?_⟩
  · intro s s' sender ts role idHash meta outs hU h
    exact userInv_requestRole s s' sender ts role idHash meta outs hU h
  · intro s s' sender ts user role outs hU h
    exact userInv_approveRole s s' sender ts user role outs hU h
  · intro s s' sender user outs hU h
    exact userInv_revokeRole s s' sender user outs hU h
  · intro s s' sender newOwner outs hU h
    simp only [transferOwnership] at h
    split_ifs at h
    all_goals simp only [Except.ok.injEq, Prod.mk.injEq] at h
    all_goals obtain ⟨hA, hB⟩ := h
    all_goals exact userInv_of_users_eq s s' (by rw [← hA]) hU
  · intro s s' sender outs hU h
    simp only [renounceOwnership] at h
    split_ifs at h
    all_goals simp only [Except.ok.injEq, Prod.mk.injEq] at h
    all_goals obtain ⟨hA, hB⟩ := h
    all_goals exact userInv_of_users_eq s s' (by rw [← hA]) hU
  · intro s s' sender ts cropName cropPeriod daysToHarvest quantityKg
      pricePerKg location visibility ipfsHash outs hU h
    simp only [addProduct] at h
    split_ifs at h
    all_goals simp only [Except.ok.injEq, Prod.mk.injEq] at h
    all_goals obtain ⟨hA, hB⟩ := h
    all_goals exact userInv_of_users_eq s s' (by rw [← hA]) hU
  · intro s s' sender batchId newQuantityKg newPricePerKg newVisibility
      newIpfsHash setActive outs hU h
    simp only [updateProduct] at h
    split_ifs at h
    all_goals simp only [Except.ok.injEq, Prod.mk.injEq] at h
    all_goals obtain ⟨hA, hB⟩ := h
    all_goals exact userInv_of_users_eq s s' (by rw [← hA]) hU
  · intro s s' sender value ts canReceive farmerBatchId qtyKg outs hU h
    simp only [buyFarmerBatch] at h
    split_ifs at h
    all_goals simp only [Except.ok.injEq, Prod.mk.injEq] at h
    all_goals obtain ⟨hA, hB⟩ := h
    all_goals exact userInv_of_users_eq s s' (by rw [← hA]) hU
  · intro s s' sender ts distributorBatchId splitQuantities pricesPerKg
      ipfsHashes outs hU h
    simp only [splitDistributorBatch] at h
    split_ifs at h
    all_goals simp only [Except.ok.injEq, Prod.mk.injEq] at h
    all_goals obtain ⟨hA, hB⟩ := h
    all_goals exact userInv_of_users_eq s s' (by rw [← hA]) hU
  · intro s s' sender packId visibility optionalPrivateAddress outs hU h
    simp only [listPack] at h
    split_ifs at h
    all_goals simp only [Except.ok.injEq, Prod.mk.injEq] at h
    all_goals obtain ⟨hA, hB⟩ := h
    all_goals exact userInv_of_users_eq s s' (by rw [← hA]) hU
  · intro s s' sender value ts packId qtyKg wantsRetailer outs hU h
    simp only [createBuyRequest] at h
    split_ifs at h
    all_goals simp only [Except.ok.injEq, Prod.mk.injEq] at h
    all_goals obtain ⟨hA, hB⟩ := h
    all_goals exact userInv_of_users_eq s s' (by rw [← hA]) hU
  · intro s s' sender ts canReceive requestId accept outs hU hside h
    exact userInv_approveBuyRequest s s' sender ts canReceive requestId
      accept outs hU hside h
  · intro s s' sender ts canReceive requestId outs hU h
    exact userInv_rejectBuyRequest s s' sender ts canReceive requestId
      outs hU h
  · intro s s' sender ts unitId unitQuantities unitPricesPerKg ipfsHashes
      outs hU h
    simp only [splitRetailUnit] at h
    split_ifs at h
    all_goals simp only [Except.ok.injEq, Prod.mk.injEq] at h
    all_goals obtain ⟨hA, hB⟩ := h
    all_goals exact userInv_of_users_eq s s' (by rw [← hA]) hU
  · intro s s' sender unitId outs hU h
    simp only [listUnitForCustomers] at h
    split_ifs at h
    all_goals simp only [Except.ok.injEq, Prod.mk.injEq] at h
    all_goals obtain ⟨hA, hB⟩ := h
    all_goals exact userInv_of_users_eq s s' (by rw [← hA]) hU
  · intro s s' sender value ts canReceive unitId qtyKg outs hU h
    simp only [buyRetailUnit] at h
    split_ifs at h
    all_goals simp only [Except.ok.injEq, Prod.mk.injEq] at h
    all_goals obtain ⟨hA, hB⟩ := h
    all_goals exact userInv_of_users_eq s s' (by rw [← hA]) hU
  · intro s s' sender canReceive outs hU h
    simp only [withdraw] at h
    split_ifs at h
    all_goals simp only [Except.ok.injEq, Prod.mk.injEq] at h
    all_goals obtain ⟨hA, hB⟩ := h
    all_goals exact userInv_of_users_eq s s' (by rw [← hA]) hU
  · intro s sender value hU
    exact userInv_of_users_eq s (receiveEther s sender value) rfl hU

/-- Claim C6, counterexample to the wording.  At the reachable state demo12
user 6 still has a pending Farmer request (requested = true) yet holds the
Retailer role: the promotion inside approveBuyRequest set the role without
clearing the pending flag, so the invariant fails on a reachable state. -/
theorem C6_counterexample :
    ReachableFrom 1 0 demo12
    ∧ (demo12.users 6).requested = true
    ∧ (demo12.users 6).role = Role.Retailer :=
  ⟨demo12_reachable, by decide, by decide⟩

/-- Claim C6, witness: the invariant holds at deployment and survives the
first request of the demo run. -/
theorem C6_userInv_witness : UserInv demo0 ∧ UserInv demo1 := by
  have hU : UserInv demo0 := fun a h => by
    by_cases ha : a = 1
    · subst ha
      exact absurd h (by decide)
    · simp only [demo0, initialState] at h
      rw [Function.update_noteq ha] at h
      exact Bool.noConfusion h
  exact ⟨hU, C6_userInv_preservation.1 demo0 demo1 2 1 1 "f2" "m2" [] hU rfl⟩

/-- Claim C7, amended.  On a successful accept, the requester's role is
overwritten to Retailer exactly when wantsRetailer is set and the current
role differs from Retailer; every other role, Admin included, is then
demoted to Retailer, contrary to the claimed at-least-equal-privilege
guard, which exists nowhere in the source (see the counterexample).  All
other addresses keep their user record. -/
theorem C7_promotion (s s' : State) (sender ts : Nat)
    (canReceive : Address → Bool) (requestId : Nat)
    (outs : List (Address × Nat))
    (h : approveBuyRequest s sender ts canReceive requestId true
      = .ok (s', outs)) :
    ((s'.users (s.buyRequests requestId).requester).role
      = if (s.buyRequests requestId).wantsRetailer = true
          ∧ (s.users (s.buyRequests requestId).requester).role ≠ Role.Retailer
        then Role.Retailer
        else (s.users (s.buyRequests requestId).requester).role)
    ∧ ∀ a, a ≠ (s.buyRequests requestId).requester →
        s'.users a = s.users a := by
  simp only [approveBuyRequest] at h
  split_ifs at h with w1 w2 w3 w4 w5 w6 w7
  · have husers : s'.users
        = if (s.buyRequests requestId).wantsRetailer = true
            ∧ (s.users (s.buyRequests requestId).requester).role
              ≠ Role.Retailer
          then Function.update s.users (s.buyRequests requestId).requester
            { s.users (s.buyRequests requestId).requester with
              role := Role.Retailer, exists' := true }
          else s.users := by
      refine acceptBuyRequest_users_spec s _ s' sender ts canReceive _ _
        outs ?_ h
      rfl
    constructor
    · rw [husers]
      by_cases hw : (s.buyRequests requestId).wantsRetailer = true
          ∧ (s.users (s.buyRequests requestId).requester).role ≠ Role.Retailer
      · rw [if_pos hw, if_pos hw, Function.update_same]
      · rw [if_neg hw, if_neg hw]
    · intro a ha
      rw [husers]
      by_cases hw : (s.buyRequests requestId).wantsRetailer = true
          ∧ (s.users (s.buyRequests requestId).requester).role ≠ Role.Retailer
      · rw [if_pos hw, Function.update_noteq ha]
      · rw [if_neg hw]
  · exact absurd (by trivial) w6
  · exact absurd (by trivial) w6

/-- Claim C7, counterexample to the wording.  In the demoAdmin branch the
deployer (role Admin) opens a request with wantsRetailer set; accepting it
demotes the Admin to Retailer instead of leaving the higher-privilege role
unchanged. -/
theorem C7_counterexample :
    ReachableFrom 1 0 demoAdminReq
    ∧ (demoAdminReq.users 1).role = Role.Admin
    ∧ ReachableFrom 1 0 demoAdminAcc
    ∧ (demoAdminAcc.users 1).role = Role.Retailer :=
  ⟨demoAdminReq_reachable, by decide, demoAdminAcc_reachable, by decide⟩

/-- Claim C7, witness: the role formula instantiated on the accepted demo
request 1, whose requester 4 is promoted to Retailer. -/
theorem C7_promotion_witness :
    (demo9.users (demo8.buyRequests 1).requester).role
      = if (demo8.buyRequests 1).wantsRetailer = true
          ∧ (demo8.users (demo8.buyRequests 1).requester).role ≠ Role.Retailer
        then Role.Retailer
        else (demo8.users (demo8.buyRequests 1).requester).role :=
  (C7_promotion demo8 demo9 3 9 alwaysPay 1 [(3, 105)] rfl).1

/-- Claim C8, amended.  A successful updateProduct updates each field
independently: a zero quantity argument, zero price argument and empty
contentRef argument leave those fields unchanged, and setActive is always
applied; every other stored field of the record, and every other record,
is untouched.  The visibility argument however does not follow the claimed
zero-keeps rule: the field is overwritten whenever the argument is a valid
enum value (at most 1), so the zero argument sets visibility to Private
rather than leaving it unchanged (see the counterexample); only an
out-of-range argument leaves it as it was. -/
theorem C8_updateProduct_fields (s : State) (sender : Address)
    (batchId nq np nv : Nat) (nh : String) (sa : Bool) (s' : State)
    (outs : List (Address × Nat))
    (h : updateProduct s sender batchId nq np nv nh sa = .ok (s', outs)) :
    (s'.farmerProducts batchId).quantityKg
      = (if nq > 0 then nq else (s.farmerProducts batchId).quantityKg) ∧
    (s'.farmerProducts batchId).pricePerKg
      = (if np > 0 then np else (s.farmerProducts batchId).pricePerKg) ∧
    (s'.farmerProducts batchId).visibility
      = (if nv ≤ 1 then Visibility.ofUint8 nv
         else (s.farmerProducts batchId).visibility) ∧
    (s'.farmerProducts batchId).ipfsHash
      = (if nh.length > 0 then nh else (s.farmerProducts batchId).ipfsHash) ∧
    (s'.farmerProducts batchId).active = sa ∧
    (s'.farmerProducts batchId).batchId = (s.farmerProducts batchId).batchId ∧
    (s'.farmerProducts batchId).farmer = (s.farmerProducts batchId).farmer ∧
    (s'.farmerProducts batchId).cropName
      = (s.farmerProducts batchId).cropName ∧
    (s'.farmerProducts batchId).cropPeriod
      = (s.farmerProducts batchId).cropPeriod ∧
    (s'.farmerProducts batchId).daysToHarvest
      = (s.farmerProducts batchId).daysToHarvest ∧
    (s'.farmerProducts batchId).location
      = (s.farmerProducts batchId).location ∧
    (s'.farmerProducts batchId).createdAt
      = (s.farmerProducts batchId).createdAt ∧
    (∀ j, j ≠ batchId → s'.farmerProducts j = s.farmerProducts j) ∧
    s'.users = s.users ∧
    s'.farmerProductCounter = s.farmerProductCounter ∧
    s'.distributorBatches = s.distributorBatches ∧
    s'.retailPacks = s.retailPacks ∧
    s'.retailUnits = s.retailUnits ∧
    s'.buyRequests = s.buyRequests ∧
    s'.purchaseRecords = s.purchaseRecords ∧
    s'.pendingWithdrawals = s.pendingWithdrawals := by
  simp only [updateProduct] at h
  split_ifs at h
  all_goals simp only [Except.ok.injEq, Prod.mk.injEq] at h
  all_goals obtain ⟨hA, hB⟩ := h
  all_goals subst hA
  all_goals
    refine ⟨?_, ?_, ?_, ?_, ?_, ?_, ?_, ?_, ?_, ?_, ?_, ?_, ?_, ?_, ?_, ?_,
      ?_, ?_, ?_, ?_, ?_⟩
  all_goals
    first
    | rfl
    | (intro j hj
       simp only [Function.update_noteq hj])
    | (simp only [Function.update_same]
       try split_ifs
       all_goals first
       | rfl
       | omega)

/-- Claim C8, counterexample to the wording.  At the reachable state demo5
product 1 is Public; updateProduct with the zero visibility argument
succeeds and flips the product to Private instead of leaving the field
unchanged. -/
theorem C8_counterexample :
    ReachableFrom 1 0 demo5
    ∧ (demo5.farmerProducts 1).visibility = Visibility.Public
    ∧ (∃ p, updateProduct demo5 2 1 0 0 0 "" true = Except.ok p)
    ∧ ((okSt (updateProduct demo5 2 1 0 0 0 "" true)).farmerProducts 1).visibility
        = Visibility.Private :=
  ⟨demo5_reachable, by decide, ⟨_, rfl⟩, by decide⟩

/-- Claim C8, witness: the field equations instantiated at demo5, keeping
the quantity (zero argument) while setting the price. -/
theorem C8_updateProduct_fields_witness :
    ((okSt (updateProduct demo5 2 1 0 9 2 "QmX" false)).farmerProducts 1).quantityKg
      = (if 0 > 0 then 0 else (demo5.farmerProducts 1).quantityKg)
    ∧ ((okSt (updateProduct demo5 2 1 0 9 2 "QmX" false)).farmerProducts 1).pricePerKg
      = (if 9 > 0 then 9 else (demo5.farmerProducts 1).pricePerKg) := by
  have h := C8_updateProduct_fields demo5 2 1 0 9 2 "QmX" false
    (okSt (updateProduct demo5 2 1 0 9 2 "QmX" false)) [] rfl
  exact ⟨h.1, h.2.1⟩

/-- Claim C9, confirmed.  withdraw fails with nothingToWithdraw on a zero
credit; on a positive credit it zeroes exactly the caller's credit and pays
out exactly that amount when the transfer goes through, and errors with
withdrawFailed — in the embedding returning no state, modelling the revert
that restores the credit — when it does not. -/
theorem C9_withdraw_exact (s : State) (sender : Nat)
    (canReceive : Address → Bool) :
    (s.pendingWithdrawals sender = 0 →
      withdraw s sender canReceive = .error .nothingToWithdraw) ∧
    (s.pendingWithdrawals sender ≠ 0 → canReceive sender = true →
      withdraw s sender canReceive
        = .ok ({ s with pendingWithdrawals :=
                   Function.update s.pendingWithdrawals sender 0 },
               [(sender, s.pendingWithdrawals sender)])) ∧
    (s.pendingWithdrawals sender ≠ 0 → canReceive sender = false →
      withdraw s sender canReceive = .error .withdrawFailed) := by
  refine ⟨?_, ?_, ?_⟩
  · intro hz
    simp only [withdraw]
    rw [if_pos hz]
  · intro hnz hcr
    simp only [withdraw]
    rw [if_neg hnz, if_pos hcr]
  · intro hnz hcr
    simp only [withdraw]
    rw [if_neg hnz, if_neg (show ¬ (canReceive sender = true) from by
      rw [hcr]; exact fun hc => Bool.noConfusion hc)]

/-- Claim C9, witness: a credit of 42 booked through receive() is paid out
in full and zeroed, and the empty credit of the fresh deployment refuses to
withdraw. -/
theorem C9_withdraw_exact_witness :
    withdraw (receiveEther demo0 7 42) 7 alwaysPay
      = .ok ({ receiveEther demo0 7 42 with
               pendingWithdrawals :=
                 Function.update (receiveEther demo0 7 42).pendingWithdrawals
                   7 0 },
             [(7, (receiveEther demo0 7 42).pendingWithdrawals 7)])
    ∧ withdraw demo0 7 alwaysPay = .error .nothingToWithdraw :=
  ⟨(C9_withdraw_exact (receiveEther demo0 7 42) 7 alwaysPay).2.1
      (by decide) rfl,
   (C9_withdraw_exact demo0 7 alwaysPay).1 (by decide)⟩

/-- Claim C10, confirmed.  createBuyRequest checks only existence,
availability, quantity bounds and exact payment: no hypothesis about the
pack's visibility, its privateBuyer, or the caller's role is needed for
success, so any caller can open a request on any available pack, including
a Private pack restricted to a different (or unset) buyer. -/
theorem C10_createBuyRequest_open (s : State)
    (sender value ts packId qtyKg : Nat) (wantsRetailer : Bool)
    (h1 : (s.retailPacks packId).packId ≠ 0)
    (h2 : (s.retailPacks packId).available = true)
    (h3 : 0 < qtyKg) (h4 : qtyKg ≤ (s.retailPacks packId).quantityKg)
    (h5 : value = qtyKg * (s.retailPacks packId).pricePerKg) :
    createBuyRequest s sender value ts packId qtyKg wantsRetailer
      = .ok ({ s with
               buyRequestCounter := s.buyRequestCounter + 1,
               buyRequests :=
                 Function.update s.buyRequests (s.buyRequestCounter + 1)
                   { requestId := s.buyRequestCounter + 1, packId := packId,
                     requester := sender, qtyKg := qtyKg,
                     wantsRetailer := wantsRetailer, amountPaid := value,
                     resolved := false, accepted := false,
                     createdAt := ts } }, []) := by
  simp only [createBuyRequest]
  rw [if_neg h1]
  rw [if_neg (show ¬ ¬ ((s.retailPacks packId).available = true) from
    not_not_intro h2)]
  rw [if_neg (not_not_intro ⟨h3, h4⟩)]
  rw [if_neg (not_not_intro h5)]

/-- Claim C10, witness: at demo7 the freshly split pack 2 is Private with
privateBuyer 0, and the roleless caller 6 still opens a request on it. -/
theorem C10_createBuyRequest_open_witness :
    (demo7.retailPacks 2).visibility = Visibility.Private
    ∧ (demo7.retailPacks 2).privateBuyer = 0
    ∧ (demo7.users 6).role = Role.None
    ∧ createBuyRequest demo7 6 175 11 2 25 true
        = .ok ({ demo7 with
                 buyRequestCounter := demo7.buyRequestCounter + 1,
                 buyRequests :=
                   Function.update demo7.buyRequests
                     (demo7.buyRequestCounter + 1)
                     { requestId := demo7.buyRequestCounter + 1, packId := 2,
                       requester := 6, qtyKg := 25, wantsRetailer := true,
                       amountPaid := 175, resolved := false,
                       accepted := false, createdAt := 11 } }, []) :=
  ⟨by decide, by decide, by decide,
   C10_createBuyRequest_open demo7 6 175 11 2 25 true (by decide) (by decide)
     (by decide) (by decide) (by decide)⟩

end SupplyChainModel
